import Mathlib

/-!
# Verification of `SourceImpl.cpp` (humble-video)

Shallow embedding of `src/src/main/gnu/src/io/humble/video/SourceImpl.cpp`.

The wrapped library (FFmpeg) is modelled by an `Env` record supplying the
results of every external call (`avformat_open_input`,
`avformat_find_stream_info`, `av_read_frame`, `avformat_seek_file`,
`av_read_pause`, `av_read_play`, `avio_size`, the custom I/O handler calls and
the allocation outcomes).  Each `SourceImpl` method becomes a pure function
from the container state (and an `Env`) to a result together with the new
container state; a C++ exception (`VS_THROW` / `throw std::runtime_error`)
becomes an `Except.error` outcome, and the state returned alongside it is the
container state at the moment the exception is raised (all mutations performed
before the throw are kept, exactly as in the C++).
-/

/-- `Container::State` lifecycle states (`Container.h`). -/
inductive ContainerState
  | INITED
  | OPENED
  | PLAYING
  | PAUSED
  | CLOSED
  | ERROR
  deriving DecidableEq, Repr

/-- C++ exceptions that the embedded code can raise.
`runtimeError` covers both `VS_THROW(HumbleRuntimeError(...))` and the
`std::runtime_error` thrown by `getFormatCtx`; `invalidArgument` is
`HumbleInvalidArgument`; `outOfRange` is the `std::out_of_range` raised by
`std::vector::at`; `nullPointer` marks a dereference of a null
`AVFormatContext` (undefined behaviour in C++, modelled as a distinguished
error outcome). -/
inductive VError
  | runtimeError (msg : String)
  | invalidArgument (msg : String)
  | outOfRange
  | nullPointer
  deriving DecidableEq, Repr

/-- An `AVInputFormat`: only its `flags` word matters to this file
(`getFileSize` tests `AVFMT_NOFILE`).  Pointer identity in the C++
(`oldFormat != ctx->iformat`) is modelled as value identity. -/
structure InputFormat where
  flags : Int
  deriving DecidableEq, Repr

/-- An `AVStream` as seen by this file: its `time_base` (num, den). -/
structure AVStream where
  time_base_num : Int
  time_base_den : Int
  deriving DecidableEq, Repr

/-- The fields of `AVFormatContext` that `SourceImpl.cpp` reads or writes. -/
structure AVFormatContext where
  flags : Int
  ctx_flags : Int
  iformat : Option InputFormat
  /-- whether `ctx->pb` (the custom AVIO context) is non-null -/
  pb : Bool
  streams : List AVStream
  duration : Int
  start_time : Int
  bit_rate : Int
  max_delay : Int
  filename : String
  audio_codec_id : Int
  video_codec_id : Int
  subtitle_codec_id : Int
  deriving DecidableEq, Repr

/-- A `SourceFormat` wrapper: it carries the `AVInputFormat` returned by
`getCtx()`. -/
structure SourceFormatModel where
  ctx : InputFormat
  deriving DecidableEq, Repr

/-- Modelled from the spec: `SourceStreamImpl` is repository code outside this
excerpt ("reference-counted ownership of derived objects (streams, ...)").  A
derived stream is modelled by the time base its `getTimeBase()` reports, a
possibly-null `Rational`. -/
structure SourceStreamModel where
  timeBase : Option (Int × Int)
  deriving DecidableEq, Repr

/-- Modelled from the spec: `SourceStreamImpl::make(container, avStream, 0)`
wraps an `AVStream`; the stream reports the (possibly fixed-up) `AVStream`
time base. -/
def SourceStreamImpl.make (st : AVStream) : SourceStreamModel :=
  { timeBase := some (st.time_base_num, st.time_base_den) }

/-- Modelled from the spec: `MediaPacketImpl` is repository code outside this
excerpt.  A packet is modelled by the fields `SourceImpl::read` touches:
the completion mark (`setComplete`), the `AVPacket` stream index and size
(filled by `av_read_frame`), and the packet time base (`setTimeBase`). -/
structure MediaPacketModel where
  complete : Bool
  streamIndex : Int
  size : Int
  timeBase : Option (Int × Int)
  deriving DecidableEq, Repr

/-- Modelled from the spec: `pkt->reset(0)` returns the packet to its blank
state (no payload, no stream, no time base, not complete). -/
def MediaPacketModel.reset : MediaPacketModel :=
  { complete := false, streamIndex := -1, size := 0, timeBase := none }

/-- The argument of `SourceImpl::read`: either an object whose
`dynamic_cast<MediaPacketImpl*>` succeeds, or some other `MediaPacket`
subclass (the cast yields null). -/
inductive PacketArg
  | mp (p : MediaPacketModel)
  | other
  deriving DecidableEq, Repr

/-- Results of all external (FFmpeg / custom-I/O) calls, fixed for one
method invocation. -/
structure Env where
  /-- does `URLProtocolManager::findHandler` return a handler for the url -/
  findHandlerFound : Bool
  /-- does `av_malloc(mInputBufferLength)` succeed -/
  avMallocOk : Bool
  /-- does `avio_alloc_context` succeed -/
  avioAllocOk : Bool
  /-- result of `mIOHandler->url_open(url, URL_RDONLY_MODE)` -/
  urlOpenResult : Int
  /-- result of `avformat_open_input` -/
  avformatOpenResult : Int
  /-- the format probed by `avformat_open_input` when none was forced -/
  probedFormat : Option InputFormat
  /-- the streams `avformat_open_input` leaves in the context on success -/
  streamsAfterOpen : List AVStream
  /-- result of `avformat_find_stream_info` -/
  findStreamInfoResult : Int
  /-- the streams `avformat_find_stream_info` leaves in the context on success -/
  streamsAfterQuery : List AVStream
  /-- result of `mIOHandler->url_close()` -/
  urlCloseResult : Int
  /-- result of the k-th `av_read_frame` call (0-indexed) in one `read` -/
  avReadResults : Nat → Int
  /-- `(stream_index, size)` that the k-th `av_read_frame` leaves in the packet -/
  avReadFill : Nat → Int × Int
  /-- fuel bounding the simulation of the `read` retry loop (the loop itself
  is unbounded in C++ when `mReadRetryMax < 0`) -/
  readFuel : Nat
  /-- result of `avio_size(ctx->pb)` -/
  avioSizeResult : Int
  /-- `avformat_seek_file` as a function of the five passed-through arguments -/
  seekFn : Int → Int → Int → Int → Int → Int
  /-- result of `av_read_pause` -/
  avReadPauseResult : Int
  /-- result of `av_read_play` -/
  avReadPlayResult : Int

/-- `AVFMT_FLAG_CUSTOM_IO` -/
def AVFMT_FLAG_CUSTOM_IO : Int := 128

/-- `AVFMT_NOFILE` -/
def AVFMT_NOFILE : Int := 1

/-- `AVFMTCTX_NOHEADER` -/
def AVFMTCTX_NOHEADER : Int := 1

/-- `AVERROR(EAGAIN)` (Linux: `EAGAIN = 11`, `AVERROR` negates). -/
def AVERROR_EAGAIN : Int := -11

/-- The member fields of `SourceImpl` (`SourceImpl.h`), as set up by the
constructor and mutated by the methods.  `mCtx` is `none` when the C++
pointer is null (after `avformat_close_input`). -/
structure SourceImpl where
  mState : ContainerState
  mCtx : Option AVFormatContext
  mStreamInfoGotten : Bool
  mReadRetryMax : Int
  mInputBufferLength : Int
  /-- whether `mIOHandler` is non-null -/
  mIOHandler : Bool
  mFormat : Option SourceFormatModel
  mNumStreams : Int
  mStreams : List SourceStreamModel
  /-- whether `mMetaData` has been cached by `getMetaData` -/
  mMetaData : Bool
  deriving DecidableEq, Repr

/-- The `AVFormatContext` produced by `avformat_alloc_context()` in the
constructor: zero-initialized. -/
def freshFormatCtx : AVFormatContext :=
  { flags := 0, ctx_flags := 0, iformat := none, pb := false, streams := [],
    duration := 0, start_time := 0, bit_rate := 0, max_delay := 0,
    filename := "", audio_codec_id := 0, video_codec_id := 0,
    subtitle_codec_id := 0 }

/-- `SourceImpl::SourceImpl()` as reached via `SourceImpl::make()`
(lines 43-55): allocation of the context is assumed to succeed (on failure
the constructor throws `std::bad_alloc` and no object exists). -/
def SourceImpl.make : SourceImpl :=
  { mState := ContainerState.INITED
    mCtx := some freshFormatCtx
    mStreamInfoGotten := false
    mReadRetryMax := 1
    mInputBufferLength := 2048
    mIOHandler := false
    mFormat := none
    mNumStreams := 0
    mStreams := []
    mMetaData := false }

/-- `mState` is one of OPENED / PLAYING / PAUSED (the guard repeated by
`getNumStreams`, `close`, `getSourceStream`, `queryStreamMetaData`). -/
def isOpenedPlayingPaused (st : ContainerState) : Bool :=
  st = ContainerState.OPENED ∨ st = ContainerState.PLAYING ∨
    st = ContainerState.PAUSED

/-- `SourceImpl::getFormatCtx` (lines 68-78): throws when the container is
CLOSED or ERROR, otherwise hands out `mCtx`. -/
def SourceImpl.getFormatCtx (s : SourceImpl) : Except VError AVFormatContext :=
  if s.mState = ContainerState.CLOSED ∨ s.mState = ContainerState.ERROR then
    Except.error (VError.runtimeError
      "Method called on Source in CLOSED or ERROR state.")
  else
    match s.mCtx with
    | some c => Except.ok c
    | none => Except.error VError.nullPointer

/-- `SourceImpl::seek` (lines 476-493): only legal in OPENED state; the five
arguments are handed unchanged to `avformat_seek_file` and its result is
returned; the container is not mutated. -/
def SourceImpl.seek (s : SourceImpl) (stream_index min_ts ts max_ts flags : Int)
    (env : Env) : Except VError Int × SourceImpl :=
  if s.mState ≠ ContainerState.OPENED then
    (Except.error (VError.runtimeError
      "Can only seek on OPEN (not paused or playing) sources"), s)
  else
    match s.getFormatCtx with
    | Except.error e => (Except.error e, s)
    | Except.ok _ =>
      (Except.ok (env.seekFn stream_index min_ts ts max_ts flags), s)

/-- `SourceImpl::pause` (lines 495-506). -/
def SourceImpl.pause (s : SourceImpl) (env : Env) :
    Except VError Int × SourceImpl :=
  if s.mState ≠ ContainerState.PLAYING then
    (Except.error (VError.runtimeError
      "Can only pause containers in PLAYING state."), s)
  else
    match s.getFormatCtx with
    | Except.error e => (Except.error e, s)
    | Except.ok _ =>
      let retval := env.avReadPauseResult
      if 0 ≤ retval then (Except.ok retval, { s with mState := ContainerState.PAUSED })
      else (Except.ok retval, s)

/-- `SourceImpl::play` (lines 508-520).  The guard
`mState != STATE_PAUSED || mState != STATE_OPENED` is kept exactly as
written in the C++. -/
def SourceImpl.play (s : SourceImpl) (env : Env) :
    Except VError Int × SourceImpl :=
  if s.mState ≠ ContainerState.PAUSED ∨ s.mState ≠ ContainerState.OPENED then
    (Except.error (VError.runtimeError
      "Can only play containers in OPENED or PAUSED states"), s)
  else
    match s.getFormatCtx with
    | Except.error e => (Except.error e, s)
    | Except.ok _ =>
      let retval := env.avReadPlayResult
      if 0 ≤ retval then (Except.ok retval, { s with mState := ContainerState.PLAYING })
      else (Except.ok retval, s)

/-- `SourceImpl::getFileSize` (lines 378-389): 0 under `AVFMT_NOFILE`,
otherwise `FFMAX(0, avio_size(ctx->pb))`. -/
def SourceImpl.getFileSize (s : SourceImpl) (env : Env) :
    Except VError Int × SourceImpl :=
  match s.getFormatCtx with
  | Except.error e => (Except.error e, s)
  | Except.ok ctx =>
    match ctx.iformat with
    | some f =>
      if Int.land f.flags AVFMT_NOFILE ≠ 0 then (Except.ok 0, s)
      else (Except.ok (max 0 env.avioSizeResult), s)
    | none => (Except.ok (max 0 env.avioSizeResult), s)

/-- `SourceImpl::setReadRetryCount` (lines 435-439): negative counts are
ignored. -/
def SourceImpl.setReadRetryCount (s : SourceImpl) (count : Int) : SourceImpl :=
  if 0 ≤ count then { s with mReadRetryMax := count } else s

/-- `SourceImpl::getReadRetryCount` (lines 430-433). -/
def SourceImpl.getReadRetryCount (s : SourceImpl) : Int :=
  s.mReadRetryMax

/-- `SourceImpl::setInputBufferLength` (lines 179-186). -/
def SourceImpl.setInputBufferLength (s : SourceImpl) (size : Int) :
    Except VError Int × SourceImpl :=
  if size ≤ 0 then
    (Except.error (VError.invalidArgument "size <= 0"), s)
  else if s.mState ≠ ContainerState.INITED then
    (Except.error (VError.runtimeError "Source object has already been opened"), s)
  else
    (Except.ok 0, { s with mInputBufferLength := size })

/-- `SourceImpl::getInputBufferLength` (lines 188-191). -/
def SourceImpl.getInputBufferLength (s : SourceImpl) : Int :=
  s.mInputBufferLength

/-- The `goodTimebase` scan in `doSetupSourceStreams` (lines 553-561): the
first stream whose time base has non-zero numerator and denominator. -/
def goodTimebase (streams : List AVStream) : Option (Int × Int) :=
  match streams.find? (fun st => st.time_base_num ≠ 0 && st.time_base_den ≠ 0) with
  | some st => some (st.time_base_num, st.time_base_den)
  | none => none

/-- The per-stream time-base fixup in `doSetupSourceStreams` (lines 569-572):
a degenerate time base is overwritten with the good one, when there is one. -/
def fixupTimeBase (good : Option (Int × Int)) (st : AVStream) : AVStream :=
  match good with
  | some g =>
    if st.time_base_num = 0 ∨ st.time_base_den = 0 then
      { st with time_base_num := g.1, time_base_den := g.2 }
    else st
  | none => st

/-- `SourceImpl::doSetupSourceStreams` (lines 545-602), acting on the context
`ctx` (the caller has already dereferenced `mCtx`); the returned container
carries the updated context.  The loop index `i` starts at `mNumStreams`
converted to `uint32_t`, so a negative `mNumStreams` makes the loop empty.
`SourceStreamImpl::make` is modelled as always succeeding (its failure mode
is allocation exhaustion).  Note the C++ returns `-1` from the loop path even
when every stream is set up, and every caller ignores this result. -/
def SourceImpl.doSetupSourceStreams (s : SourceImpl) (ctx : AVFormatContext) :
    Int × SourceImpl :=
  if s.mNumStreams = (ctx.streams.length : Int) then
    (0, { s with mCtx := some ctx })
  else
    let good := goodTimebase ctx.streams
    let skip : Nat :=
      if s.mNumStreams < 0 then ctx.streams.length else s.mNumStreams.toNat
    let newRaw := ctx.streams.drop skip
    let newFixed := newRaw.map (fixupTimeBase good)
    let ctx2 := { ctx with streams := ctx.streams.take skip ++ newFixed }
    (-1,
     { s with
       mCtx := some ctx2
       mStreams := s.mStreams ++ newFixed.map SourceStreamImpl.make
       mNumStreams := s.mNumStreams + (newFixed.length : Int) })

/-- `SourceImpl::getNumStreams` (lines 193-207). -/
def SourceImpl.getNumStreams (s : SourceImpl) : Except VError Int × SourceImpl :=
  if ¬ isOpenedPlayingPaused s.mState then
    (Except.error (VError.runtimeError
      "Attempt to query number of streams in source when not opened, playing or paused is ignored"), s)
  else
    match s.mCtx with
    | none => (Except.error VError.nullPointer, s)
    | some ctx =>
      let s1 :=
        if (ctx.streams.length : Int) ≠ s.mNumStreams then
          (s.doSetupSourceStreams ctx).2
        else s
      (Except.ok s1.mNumStreams, s1)

/-- `SourceImpl::getSourceStream` (lines 269-288).  `mStreams.at(position)`
converts the `int32_t` position to `size_t`: a negative position wraps to a
huge index and `std::vector::at` raises `std::out_of_range`. -/
def SourceImpl.getSourceStream (s : SourceImpl) (position : Int) :
    Except VError (Option SourceStreamModel) × SourceImpl :=
  if ¬ isOpenedPlayingPaused s.mState then
    (Except.error (VError.runtimeError
      "Attempt to get source stream from source when not opened, playing or paused is ignored"), s)
  else
    match s.mCtx with
    | none => (Except.error VError.nullPointer, s)
    | some ctx =>
      let s1 :=
        if (ctx.streams.length : Int) ≠ s.mNumStreams then
          (s.doSetupSourceStreams ctx).2
        else s
      if position < s1.mNumStreams then
        if position < 0 then (Except.error VError.outOfRange, s1)
        else
          match s1.mStreams[position.toNat]? with
          | some str => (Except.ok (some str), s1)
          | none => (Except.error VError.outOfRange, s1)
      else (Except.ok none, s1)

/-- `SourceImpl::doCloseFileHandles` (lines 251-267): with a custom I/O
handler installed the handler is closed (its result is returned) and the
handler is released; otherwise the result is 0.  The `pb` flush/free calls
do not touch the container fields. -/
def SourceImpl.doCloseFileHandles (s : SourceImpl) (env : Env) :
    Int × SourceImpl :=
  if s.mIOHandler then
    (env.urlCloseResult, { s with mIOHandler := false })
  else
    (0, s)

/-- `SourceImpl::close` (lines 209-249).  Also returns the list of streams
notified via `containerClosed`, in notification order (the C++ pops from the
back of `mStreams`). -/
def SourceImpl.close (s : SourceImpl) (env : Env) :
    Except VError Int × SourceImpl × List SourceStreamModel :=
  if ¬ isOpenedPlayingPaused s.mState then
    (Except.error (VError.runtimeError
      "Attempt to close container when not opened, playing or paused"), s, [])
  else
    let notified := s.mStreams.reverse
    let s1 := { s with mStreams := [], mNumStreams := 0 }
    match s1.mCtx with
    | none => (Except.error VError.nullPointer, s1, notified)
    | some _ =>
      let s2 := { s1 with mCtx := none }
      let (retval, s3) := s2.doCloseFileHandles env
      if retval < 0 then
        (Except.ok retval, { s3 with mState := ContainerState.ERROR }, notified)
      else
        (Except.ok retval, { s3 with mState := ContainerState.CLOSED }, notified)

/-- `SourceImpl::queryStreamMetaData` (lines 342-366): the library query runs
only while `mStreamInfoGotten` is unset and latches it on success; afterwards
the cached result 0 is returned.  On success `avformat_find_stream_info`
leaves its (possibly enlarged) stream table in the context. -/
def SourceImpl.queryStreamMetaData (s : SourceImpl) (env : Env) :
    Except VError Int × SourceImpl :=
  if ¬ isOpenedPlayingPaused s.mState then
    (Except.error (VError.runtimeError
      "Attempt to query stream information from container when not opened, playing or paused"), s)
  else
    match s.mCtx with
    | none => (Except.error VError.nullPointer, s)
    | some ctx0 =>
      let qr : Int × SourceImpl × AVFormatContext :=
        if ¬ s.mStreamInfoGotten then
          let r := env.findStreamInfoResult
          if 0 ≤ r then
            let ctx1 := { ctx0 with streams := env.streamsAfterQuery }
            (r, { s with mStreamInfoGotten := true, mCtx := some ctx1 }, ctx1)
          else (r, s, ctx0)
        else (0, s, ctx0)
      let retval := qr.1
      let s1 := qr.2.1
      let ctx1 := qr.2.2
      if 0 ≤ retval ∧ 0 < ctx1.streams.length then
        (Except.ok retval, (s1.doSetupSourceStreams ctx1).2)
      else
        (Except.ok retval, s1)

/-- The `do { av_read_frame; ++numReads } while (retval == AVERROR(EAGAIN) &&
(mReadRetryMax < 0 || numReads <= mReadRetryMax))` loop of
`SourceImpl::read` (lines 301-308), simulated with explicit fuel (the C++
loop is unbounded when `mReadRetryMax < 0` and the library keeps returning
`EAGAIN`).  `reads` counts the calls already made; the result is the total
number of calls together with the last result, or `none` when the fuel is
exhausted before the loop exits. -/
def readLoopFuel (retryMax : Int) (results : Nat → Int) :
    Nat → Nat → Option (Nat × Int)
  | 0, _ => none
  | fuel + 1, reads =>
    let r := results reads
    let numReads := reads + 1
    if r = AVERROR_EAGAIN ∧ (retryMax < 0 ∨ (numReads : Int) ≤ retryMax) then
      readLoopFuel retryMax results fuel numReads
    else
      some (numReads, r)

/-- `SourceImpl::read` (lines 290-340).  The result is `none` when the retry
loop has not yet exited within `env.readFuel` iterations (possible only for
`mReadRetryMax < 0`); otherwise the returned value, the container, and the
packet argument after the call. -/
def SourceImpl.read (s : SourceImpl) (arg : PacketArg) (env : Env) :
    Option (Except VError Int × SourceImpl × PacketArg) :=
  match arg with
  | PacketArg.other => some (Except.ok (-1), s, PacketArg.other)
  | PacketArg.mp _ =>
    -- pkt->reset(0); pkt->setComplete(false, pkt->getSize());
    let p0 := MediaPacketModel.reset
    match s.getFormatCtx with
    | Except.error e => some (Except.error e, s, PacketArg.mp p0)
    | Except.ok _ =>
      match readLoopFuel s.mReadRetryMax env.avReadResults env.readFuel 0 with
      | none => none
      | some nr =>
        let retval := nr.2
        let fill := env.avReadFill (nr.1 - 1)
        let p1 := { p0 with streamIndex := fill.1, size := fill.2 }
        if 0 ≤ retval then
          if 0 ≤ p1.streamIndex then
            let gs := s.getSourceStream p1.streamIndex
            match gs.1 with
            | Except.error e => some (Except.error e, gs.2, PacketArg.mp p1)
            | Except.ok ostream =>
              let p2 :=
                match ostream with
                | some st =>
                  match st.timeBase with
                  | some tb => { p1 with timeBase := some tb }
                  | none => p1
                | none => p1
              some (Except.ok retval, gs.2, PacketArg.mp { p2 with complete := true })
          else
            some (Except.ok retval, s, PacketArg.mp { p1 with complete := true })
        else
          some (Except.ok retval, s, PacketArg.mp p1)

/-- whether `!url || !*url` holds (a null or empty C string). -/
def urlEmpty : Option String → Bool
  | none => true
  | some u => u.isEmpty

/-- `SourceImpl::doOpen` (lines 522-543), acting on the context `ctx`.
With a custom handler installed, `url_open` runs first; a non-negative result
lets `avformat_open_input` run.  On `avformat_open_input` failure the library
frees the context and nulls `mCtx`, and the open file handles are closed; on
success the context carries the probed format, the discovered streams and the
url as filename.  The returned context is `none` exactly when
`avformat_open_input` ran and failed. -/
def SourceImpl.doOpen (s : SourceImpl) (url : Option String)
    (ctx : AVFormatContext) (env : Env) :
    Int × SourceImpl × Option AVFormatContext :=
  let retval : Int := if s.mIOHandler then env.urlOpenResult else 0
  if 0 ≤ retval then
    if 0 ≤ env.avformatOpenResult then
      let ctx2 :=
        { ctx with
          iformat := match ctx.iformat with
            | some f => some f
            | none => env.probedFormat
          streams := env.streamsAfterOpen
          filename := match url with | some u => u | none => "" }
      (env.avformatOpenResult, s, some ctx2)
    else
      let dc := s.doCloseFileHandles env
      (env.avformatOpenResult, dc.2, none)
  else
    (retval, s, some ctx)

/-- The tail of `SourceImpl::open` from the `doOpen` call onwards
(lines 153-176), shared by the custom-I/O and plain paths.  On success the
state becomes OPENED, the format wrapper tracks a changed `ctx->iformat`,
`AVFMTCTX_NOHEADER` is set when streams may be added dynamically, and the
optional metadata query runs; a final negative result puts the container in
ERROR state. -/
def SourceImpl.openFinish (s : SourceImpl) (url : Option String)
    (oldFormat : Option InputFormat) (ctx : AVFormatContext)
    (streamsCanBeAddedDynamically queryMetaData : Bool) (env : Env) :
    Except VError Int × SourceImpl :=
  let dres := s.doOpen url ctx env
  let retval := dres.1
  let s2 := { dres.2.1 with mCtx := dres.2.2 }
  if 0 ≤ retval then
    match dres.2.2 with
    | none =>
      -- dead branch: doOpen returns a context whenever its result is ≥ 0
      (Except.ok retval, { s2 with mState := ContainerState.OPENED })
    | some ctxo =>
      let mFormat2 :=
        if oldFormat ≠ ctxo.iformat then
          ctxo.iformat.map (fun f => ({ ctx := f } : SourceFormatModel))
        else s2.mFormat
      let ctx4 :=
        if streamsCanBeAddedDynamically then
          { ctxo with ctx_flags := Int.lor ctxo.ctx_flags AVFMTCTX_NOHEADER }
        else ctxo
      let s4 := { s2 with
                  mState := ContainerState.OPENED
                  mFormat := mFormat2
                  mCtx := some ctx4 }
      if queryMetaData then
        match s4.queryStreamMetaData env with
        | (Except.ok r2, s5) =>
          if r2 < 0 then (Except.ok r2, { s5 with mState := ContainerState.ERROR })
          else (Except.ok r2, s5)
        | (Except.error e, s5) => (Except.error e, s5)
      else (Except.ok retval, s4)
  else
    (Except.ok retval, { s2 with mState := ContainerState.ERROR })

/-- `SourceImpl::open` (lines 88-177).  The `options` / `optionsNotSet` bags
only feed the temporary dictionary and the caller's bag; they touch no
container field and are omitted. -/
def SourceImpl.open (s : SourceImpl) (url : Option String)
    (format : Option SourceFormatModel)
    (streamsCanBeAddedDynamically queryMetaData : Bool) (env : Env) :
    Except VError Int × SourceImpl :=
  match s.getFormatCtx with
  | Except.error e => (Except.error e, s)
  | Except.ok ctx0 =>
    if s.mState ≠ ContainerState.INITED then (Except.ok (-1), s)
    else if urlEmpty url then (Except.ok (-1), s)
    else
      let ctx1 :=
        match format with
        | some f => { ctx0 with iformat := some f.ctx }
        | none => ctx0
      let mFormat1 := match format with | some f => some f | none => s.mFormat
      let oldFormat := ctx1.iformat
      let hasIO := env.findHandlerFound
      let sIO := { s with mFormat := mFormat1, mIOHandler := hasIO }
      if hasIO then
        let ctx2 := { ctx1 with flags := Int.lor ctx1.flags AVFMT_FLAG_CUSTOM_IO }
        if ¬ env.avMallocOk then
          (Except.ok (-1),
           { sIO with mState := ContainerState.ERROR, mCtx := some ctx2 })
        else if ¬ env.avioAllocOk then
          (Except.ok (-1),
           { sIO with mState := ContainerState.ERROR, mCtx := some ctx2 })
        else
          let ctx3 := { ctx2 with pb := true }
          SourceImpl.openFinish { sIO with mCtx := some ctx3 } url oldFormat
            ctx3 streamsCanBeAddedDynamically queryMetaData env
      else
        SourceImpl.openFinish { sIO with mCtx := some ctx1 } url oldFormat
          ctx1 streamsCanBeAddedDynamically queryMetaData env

/-- `SourceImpl::getDuration` (lines 368-371). -/
def SourceImpl.getDuration (s : SourceImpl) : Except VError Int × SourceImpl :=
  match s.getFormatCtx with
  | Except.error e => (Except.error e, s)
  | Except.ok ctx => (Except.ok ctx.duration, s)

/-- `SourceImpl::getStartTime` (lines 373-376). -/
def SourceImpl.getStartTime (s : SourceImpl) : Except VError Int × SourceImpl :=
  match s.getFormatCtx with
  | Except.error e => (Except.error e, s)
  | Except.ok ctx => (Except.ok ctx.start_time, s)

/-- `SourceImpl::getBitRate` (lines 391-394). -/
def SourceImpl.getBitRate (s : SourceImpl) : Except VError Int × SourceImpl :=
  match s.getFormatCtx with
  | Except.error e => (Except.error e, s)
  | Except.ok ctx => (Except.ok ctx.bit_rate, s)

/-- `SourceImpl::getFlags` (lines 396-400). -/
def SourceImpl.getFlags (s : SourceImpl) : Except VError Int × SourceImpl :=
  match s.getFormatCtx with
  | Except.error e => (Except.error e, s)
  | Except.ok ctx => (Except.ok ctx.flags, s)

/-- `SourceImpl::setFlags` (lines 402-408). -/
def SourceImpl.setFlags (s : SourceImpl) (newFlags : Int) :
    Except VError Int × SourceImpl :=
  match s.getFormatCtx with
  | Except.error e => (Except.error e, s)
  | Except.ok ctx =>
    let f1 := newFlags
    let f2 := if s.mIOHandler then Int.lor f1 AVFMT_FLAG_CUSTOM_IO else f1
    (Except.ok 0, { s with mCtx := some { ctx with flags := f2 } })

/-- `SourceImpl::getFlag` (lines 410-413). -/
def SourceImpl.getFlag (s : SourceImpl) (flag : Int) :
    Except VError Int × SourceImpl :=
  match s.getFormatCtx with
  | Except.error e => (Except.error e, s)
  | Except.ok ctx =>
    (Except.ok (if Int.land ctx.flags flag ≠ 0 then 1 else 0), s)

/-- two's-complement bitwise NOT on `Int` (`~flag`). -/
def intNot (x : Int) : Int := -x - 1

/-- `SourceImpl::setFlag` (lines 415-423). -/
def SourceImpl.setFlag (s : SourceImpl) (flag : Int) (value : Bool) :
    Except VError Int × SourceImpl :=
  match s.getFormatCtx with
  | Except.error e => (Except.error e, s)
  | Except.ok ctx =>
    let f2 := if value then Int.lor ctx.flags flag
              else Int.land ctx.flags (intNot flag)
    (Except.ok 0, { s with mCtx := some { ctx with flags := f2 } })

/-- `SourceImpl::getURL` (lines 425-428): returns `ctx->filename`. -/
def SourceImpl.getURL (s : SourceImpl) : Except VError String × SourceImpl :=
  match s.getFormatCtx with
  | Except.error e => (Except.error e, s)
  | Except.ok ctx => (Except.ok ctx.filename, s)

/-- `SourceImpl::canStreamsBeAddedDynamically` (lines 441-444). -/
def SourceImpl.canStreamsBeAddedDynamically (s : SourceImpl) :
    Except VError Bool × SourceImpl :=
  match s.getFormatCtx with
  | Except.error e => (Except.error e, s)
  | Except.ok ctx =>
    (Except.ok (Int.land ctx.ctx_flags AVFMTCTX_NOHEADER ≠ 0), s)

/-- `SourceImpl::getMetaData` (lines 446-451): caches the bag on first use. -/
def SourceImpl.getMetaData (s : SourceImpl) : Except VError Int × SourceImpl :=
  match s.getFormatCtx with
  | Except.error e => (Except.error e, s)
  | Except.ok _ =>
    if ¬ s.mMetaData then (Except.ok 0, { s with mMetaData := true })
    else (Except.ok 0, s)

/-- `SourceImpl::setForcedAudioCodec` (lines 453-457). -/
def SourceImpl.setForcedAudioCodec (s : SourceImpl) (id : Int) :
    Except VError Int × SourceImpl :=
  match s.getFormatCtx with
  | Except.error e => (Except.error e, s)
  | Except.ok ctx =>
    (Except.ok 0, { s with mCtx := some { ctx with audio_codec_id := id } })

/-- `SourceImpl::setForcedVideoCodec` (lines 459-463). -/
def SourceImpl.setForcedVideoCodec (s : SourceImpl) (id : Int) :
    Except VError Int × SourceImpl :=
  match s.getFormatCtx with
  | Except.error e => (Except.error e, s)
  | Except.ok ctx =>
    (Except.ok 0, { s with mCtx := some { ctx with video_codec_id := id } })

/-- `SourceImpl::setForcedSubtitleCodec` (lines 465-469). -/
def SourceImpl.setForcedSubtitleCodec (s : SourceImpl) (id : Int) :
    Except VError Int × SourceImpl :=
  match s.getFormatCtx with
  | Except.error e => (Except.error e, s)
  | Except.ok ctx =>
    (Except.ok 0, { s with mCtx := some { ctx with subtitle_codec_id := id } })

/-- `SourceImpl::getMaxDelay` (lines 471-474). -/
def SourceImpl.getMaxDelay (s : SourceImpl) : Except VError Int × SourceImpl :=
  match s.getFormatCtx with
  | Except.error e => (Except.error e, s)
  | Except.ok ctx => (Except.ok ctx.max_delay, s)

/-- One invocation of a public `SourceImpl` method, with its arguments. -/
inductive Op
  | opOpen (url : Option String) (format : Option SourceFormatModel)
      (streamsCanBeAddedDynamically queryMetaData : Bool)
  | opClose
  | opRead (arg : PacketArg)
  | opSeek (stream_index min_ts ts max_ts flags : Int)
  | opPause
  | opPlay
  | opQueryStreamMetaData
  | opGetNumStreams
  | opGetSourceStream (position : Int)
  | opSetInputBufferLength (size : Int)
  | opGetInputBufferLength
  | opSetReadRetryCount (count : Int)
  | opGetReadRetryCount
  | opGetDuration
  | opGetStartTime
  | opGetFileSize
  | opGetBitRate
  | opGetFlags
  | opSetFlags (f : Int)
  | opGetFlag (f : Int)
  | opSetFlag (f : Int) (v : Bool)
  | opGetURL
  | opCanStreamsBeAddedDynamically
  | opGetMetaData
  | opSetForcedAudioCodec (id : Int)
  | opSetForcedVideoCodec (id : Int)
  | opSetForcedSubtitleCodec (id : Int)
  | opGetMaxDelay

/-- Dispatch of one public method call.  Non-`Int` results are coerced
(`Bool` to 0/1, a returned stream pointer to 0/1, a string to 0) since only
the numeric sign of `open` / `close` / `pause` / `play` results matters to
the lifecycle claims.  `none` means the call has not returned within the
simulation fuel (only possible for `read` with a negative retry count). -/
def step (s : SourceImpl) (op : Op) (env : Env) :
    Option (Except VError Int × SourceImpl) :=
  match op with
  | Op.opOpen url format dyn qm => some (s.open url format dyn qm env)
  | Op.opClose =>
    let r := s.close env
    some (r.1, r.2.1)
  | Op.opRead arg =>
    match s.read arg env with
    | none => none
    | some r => some (r.1, r.2.1)
  | Op.opSeek a b c d e => some (s.seek a b c d e env)
  | Op.opPause => some (s.pause env)
  | Op.opPlay => some (s.play env)
  | Op.opQueryStreamMetaData => some (s.queryStreamMetaData env)
  | Op.opGetNumStreams => some s.getNumStreams
  | Op.opGetSourceStream pos =>
    let r := s.getSourceStream pos
    some (r.1.map (fun o => if o.isSome then 1 else 0), r.2)
  | Op.opSetInputBufferLength size => some (s.setInputBufferLength size)
  | Op.opGetInputBufferLength => some (Except.ok s.getInputBufferLength, s)
  | Op.opSetReadRetryCount count => some (Except.ok 0, s.setReadRetryCount count)
  | Op.opGetReadRetryCount => some (Except.ok s.getReadRetryCount, s)
  | Op.opGetDuration => some s.getDuration
  | Op.opGetStartTime => some s.getStartTime
  | Op.opGetFileSize => some (s.getFileSize env)
  | Op.opGetBitRate => some s.getBitRate
  | Op.opGetFlags => some s.getFlags
  | Op.opSetFlags f => some (s.setFlags f)
  | Op.opGetFlag f => some (s.getFlag f)
  | Op.opSetFlag f v => some (s.setFlag f v)
  | Op.opGetURL =>
    let r := s.getURL
    some (r.1.map (fun _ => 0), r.2)
  | Op.opCanStreamsBeAddedDynamically =>
    let r := s.canStreamsBeAddedDynamically
    some (r.1.map (fun b => if b then 1 else 0), r.2)
  | Op.opGetMetaData => some s.getMetaData
  | Op.opSetForcedAudioCodec id => some (s.setForcedAudioCodec id)
  | Op.opSetForcedVideoCodec id => some (s.setForcedVideoCodec id)
  | Op.opSetForcedSubtitleCodec id => some (s.setForcedSubtitleCodec id)
  | Op.opGetMaxDelay => some s.getMaxDelay

/-- The containers reachable from a freshly made `SourceImpl` through the
public API. -/
inductive Reachable : SourceImpl → Prop
  | init : Reachable SourceImpl.make
  | next {s : SourceImpl} {op : Op} {env : Env} {r : Except VError Int}
      {s2 : SourceImpl} :
      Reachable s → step s op env = some (r, s2) → Reachable s2

/-- A concrete environment used to witness the theorems on live inputs. -/
def sampleEnv : Env :=
  { findHandlerFound := false
    avMallocOk := true
    avioAllocOk := true
    urlOpenResult := 0
    avformatOpenResult := 0
    probedFormat := some { flags := 0 }
    streamsAfterOpen := []
    findStreamInfoResult := 0
    streamsAfterQuery := [{ time_base_num := 1, time_base_den := 25 },
                          { time_base_num := 0, time_base_den := 0 }]
    urlCloseResult := 0
    avReadResults := fun _ => 0
    avReadFill := fun _ => (0, 10)
    readFuel := 5
    avioSizeResult := -7
    seekFn := fun _ _ _ _ _ => 0
    avReadPauseResult := 0
    avReadPlayResult := 0 }

/-- A freshly made container moved to OPENED state (as a successful `open`
leaves it, up to the fields the witnesses do not inspect). -/
def sampleOpened : SourceImpl :=
  { SourceImpl.make with mState := ContainerState.OPENED }

/-- The container left behind by closing `sampleOpened`. -/
def sampleClosed : SourceImpl :=
  { SourceImpl.make with mState := ContainerState.CLOSED, mCtx := none }

/-- The container fields that the lifecycle claims track: the state and the
read retry bound. -/
def framePreserved (s t : SourceImpl) : Prop :=
  t.mState = s.mState ∧ t.mReadRetryMax = s.mReadRetryMax

/-- C5: `seek` raises a runtime error unless the state is exactly OPENED
(PLAYING and PAUSED are rejected too); in OPENED state it passes
`stream_index`, `min_ts`, `ts`, `max_ts` and `flags` unchanged to
`avformat_seek_file`, returns that result, and leaves the container
unchanged. -/
theorem C5_seek (s : SourceImpl) (stream_index min_ts ts max_ts flags : Int)
    (env : Env) :
    (s.mState ≠ ContainerState.OPENED →
      ∃ msg, s.seek stream_index min_ts ts max_ts flags env =
        (Except.error (VError.runtimeError msg), s)) ∧
    (s.mState = ContainerState.OPENED → s.mCtx.isSome →
      s.seek stream_index min_ts ts max_ts flags env =
        (Except.ok (env.seekFn stream_index min_ts ts max_ts flags), s)) := by
  constructor
  · intro h
    refine ⟨"Can only seek on OPEN (not paused or playing) sources", ?_⟩
    simp [SourceImpl.seek, h]
  · intro h hc
    match hc2 : s.mCtx with
    | some c => simp [SourceImpl.seek, SourceImpl.getFormatCtx, h, hc2]
    | none => rw [hc2] at hc; simp at hc

/-- C5 witness: a PLAYING container is rejected and an OPENED container gets
the pass-through result. -/
theorem C5_seek_witness :
    (∃ msg, SourceImpl.seek { SourceImpl.make with mState := ContainerState.PLAYING }
        1 2 3 4 5 sampleEnv =
      (Except.error (VError.runtimeError msg),
        { SourceImpl.make with mState := ContainerState.PLAYING })) ∧
    SourceImpl.seek sampleOpened 1 2 3 4 5 sampleEnv =
      (Except.ok (sampleEnv.seekFn 1 2 3 4 5), sampleOpened) :=
  ⟨(C5_seek { SourceImpl.make with mState := ContainerState.PLAYING }
      1 2 3 4 5 sampleEnv).1 (by decide),
   (C5_seek sampleOpened 1 2 3 4 5 sampleEnv).2 (by decide) (by decide)⟩

/-- C9: whenever the container is not CLOSED or ERROR, `getFileSize` returns
a non-negative value without mutating the container: 0 under the
`AVFMT_NOFILE` input-format flag, and `max 0 (avio_size result)` otherwise,
so a negative library size is never propagated. -/
theorem C9_getFileSize (s : SourceImpl) (env : Env) (ctx : AVFormatContext)
    (h1 : s.mState ≠ ContainerState.CLOSED) (h2 : s.mState ≠ ContainerState.ERROR)
    (hc : s.mCtx = some ctx) :
    ∃ v, s.getFileSize env = (Except.ok v, s) ∧ 0 ≤ v ∧
      ((∃ f, ctx.iformat = some f ∧ Int.land f.flags AVFMT_NOFILE ≠ 0) → v = 0) ∧
      ((∀ f, ctx.iformat = some f → Int.land f.flags AVFMT_NOFILE = 0) →
        v = max 0 env.avioSizeResult) := by
  unfold SourceImpl.getFileSize SourceImpl.getFormatCtx
  rw [hc]
  simp only [h1, h2, or_self, if_false]
  match hif : ctx.iformat with
  | some f =>
    by_cases hf : Int.land f.flags AVFMT_NOFILE ≠ 0
    · refine ⟨0, by simp [hf], le_refl 0, fun _ => rfl, fun hall => ?_⟩
      exact absurd (hall f rfl) hf
    · refine ⟨max 0 env.avioSizeResult, by simp [hf], le_max_left _ _, ?_, fun _ => rfl⟩
      rintro ⟨g, hg, hgf⟩
      cases hg
      exact absurd hgf hf
  | none =>
    refine ⟨max 0 env.avioSizeResult, by simp, le_max_left _ _, ?_, fun _ => rfl⟩
    rintro ⟨g, hg, -⟩
    cases hg

/-- C9 witness: with the library reporting size `-7`, an OPENED container
(no `AVFMT_NOFILE` format) reports file size `max 0 (-7) = 0 ≥ 0`. -/
theorem C9_getFileSize_witness :
    ∃ v, sampleOpened.getFileSize sampleEnv = (Except.ok v, sampleOpened) ∧
      0 ≤ v ∧ v = max 0 sampleEnv.avioSizeResult := by
  obtain ⟨v, h, hv, -, hmax⟩ :=
    C9_getFileSize sampleOpened sampleEnv freshFormatCtx (by decide) (by decide) rfl
  exact ⟨v, h, hv, hmax (by intro f hf; cases hf)⟩

/-- C2: calling `open` in OPENED, PLAYING or PAUSED state, or in INITED state
with a null or empty url, returns -1 and leaves the whole container record
(state and every other field) unchanged; calling it in CLOSED or ERROR state
raises a runtime error instead of returning. -/
theorem C2_open_rejection (s : SourceImpl) (url : Option String)
    (format : Option SourceFormatModel) (dyn qm : Bool) (env : Env) :
    ((s.mState = ContainerState.OPENED ∨ s.mState = ContainerState.PLAYING ∨
        s.mState = ContainerState.PAUSED) → s.mCtx.isSome →
      s.open url format dyn qm env = (Except.ok (-1), s)) ∧
    (s.mState = ContainerState.INITED → urlEmpty url = true → s.mCtx.isSome →
      s.open url format dyn qm env = (Except.ok (-1), s)) ∧
    ((s.mState = ContainerState.CLOSED ∨ s.mState = ContainerState.ERROR) →
      ∃ msg, s.open url format dyn qm env =
        (Except.error (VError.runtimeError msg), s)) := by
  refine ⟨?_, ?_, ?_⟩
  · intro hst hc
    match hc2 : s.mCtx with
    | none => rw [hc2] at hc; simp at hc
    | some c =>
      have hne : s.mState ≠ ContainerState.INITED := by
        rcases hst with h | h | h <;> rw [h] <;> intro hcon <;> cases hcon
      have hnc : ¬(s.mState = ContainerState.CLOSED ∨ s.mState = ContainerState.ERROR) := by
        rcases hst with h | h | h <;> rw [h] <;> rintro (hcon | hcon) <;> cases hcon
      simp [SourceImpl.open, SourceImpl.getFormatCtx, hnc, hc2, hne]
  · intro hst hu hc
    match hc2 : s.mCtx with
    | none => rw [hc2] at hc; simp at hc
    | some c =>
      simp [SourceImpl.open, SourceImpl.getFormatCtx, hst, hc2, hu]
  · intro hst
    refine ⟨"Method called on Source in CLOSED or ERROR state.", ?_⟩
    simp [SourceImpl.open, SourceImpl.getFormatCtx, hst]

/-- C2 witness: an OPENED container, an INITED container with an empty url and
with a null url, and a CLOSED container, all with concrete inputs. -/
theorem C2_open_rejection_witness :
    sampleOpened.open (some "x.mp4") none false false sampleEnv =
      (Except.ok (-1), sampleOpened) ∧
    SourceImpl.make.open (some "") none false false sampleEnv =
      (Except.ok (-1), SourceImpl.make) ∧
    SourceImpl.make.open none none false false sampleEnv =
      (Except.ok (-1), SourceImpl.make) ∧
    (∃ msg, SourceImpl.open { SourceImpl.make with mState := ContainerState.CLOSED }
        (some "x.mp4") none false false sampleEnv =
      (Except.error (VError.runtimeError msg),
        { SourceImpl.make with mState := ContainerState.CLOSED })) :=
  ⟨(C2_open_rejection sampleOpened (some "x.mp4") none false false sampleEnv).1
      (Or.inl rfl) (by decide),
   (C2_open_rejection SourceImpl.make (some "") none false false sampleEnv).2.1
      rfl (by decide) (by decide),
   (C2_open_rejection SourceImpl.make none none false false sampleEnv).2.1
      rfl (by decide) (by decide),
   (C2_open_rejection { SourceImpl.make with mState := ContainerState.CLOSED }
      (some "x.mp4") none false false sampleEnv).2.2 (Or.inl rfl)⟩

/-- C4: `close` raises a runtime error unless the state is OPENED, PLAYING or
PAUSED; otherwise it notifies every derived stream of the container closing
(back to front) and releases them all, leaving the stream count at 0, sets the
state to CLOSED — or to ERROR when the custom I/O close handler reports a
negative result — and returns 0 with no custom I/O handler installed and the
handler close result otherwise. -/
theorem C4_close (s : SourceImpl) (env : Env) :
    (¬ isOpenedPlayingPaused s.mState = true →
      ∃ msg, s.close env = (Except.error (VError.runtimeError msg), s, [])) ∧
    (isOpenedPlayingPaused s.mState = true → s.mCtx.isSome →
      ∃ s2, s.close env =
          (Except.ok (if s.mIOHandler then env.urlCloseResult else 0), s2,
            s.mStreams.reverse) ∧
        s2.mStreams = [] ∧ s2.mNumStreams = 0 ∧
        s2.mState = (if s.mIOHandler ∧ env.urlCloseResult < 0 then
            ContainerState.ERROR else ContainerState.CLOSED)) := by
  constructor
  · intro h
    refine ⟨"Attempt to close container when not opened, playing or paused", ?_⟩
    simp [SourceImpl.close, h]
  · intro h hc
    match hc2 : s.mCtx with
    | none => rw [hc2] at hc; simp at hc
    | some c =>
      by_cases hio : s.mIOHandler
      · by_cases hneg : env.urlCloseResult < 0
        · refine ⟨{ s with
                      mStreams := []
                      mNumStreams := 0
                      mCtx := none
                      mIOHandler := false
                      mState := ContainerState.ERROR },
            ?_, rfl, rfl, ?_⟩
          · simp [SourceImpl.close, h, hc2, SourceImpl.doCloseFileHandles, hio, hneg]
          · simp [hio, hneg]
        · refine ⟨{ s with
                      mStreams := []
                      mNumStreams := 0
                      mCtx := none
                      mIOHandler := false
                      mState := ContainerState.CLOSED },
            ?_, rfl, rfl, ?_⟩
          · simp [SourceImpl.close, h, hc2, SourceImpl.doCloseFileHandles, hio, hneg]
          · simp [hio, hneg]
      · refine ⟨{ s with
                    mStreams := []
                    mNumStreams := 0
                    mCtx := none
                    mState := ContainerState.CLOSED }, ?_, rfl, rfl, ?_⟩
        · simp [SourceImpl.close, h, hc2, SourceImpl.doCloseFileHandles, hio]
        · simp [hio]

/-- C4 witness: closing an OPENED container with two derived streams and no
custom I/O handler notifies both streams back to front, empties the stream
list, returns 0 and ends CLOSED; an INITED container is rejected. -/
theorem C4_close_witness :
    (∃ s2, SourceImpl.close
        { sampleOpened with
          mStreams := [{ timeBase := some (1, 25) }, { timeBase := none }],
          mNumStreams := 2 } sampleEnv =
        (Except.ok 0, s2, [{ timeBase := none }, { timeBase := some (1, 25) }]) ∧
      s2.mStreams = [] ∧ s2.mNumStreams = 0 ∧
      s2.mState = ContainerState.CLOSED) ∧
    (∃ msg, SourceImpl.make.close sampleEnv =
      (Except.error (VError.runtimeError msg), SourceImpl.make, [])) := by
  constructor
  · obtain ⟨s2, h1, h2, h3, h4⟩ :=
      (C4_close
        { sampleOpened with
          mStreams := [{ timeBase := some (1, 25) }, { timeBase := none }],
          mNumStreams := 2 } sampleEnv).2 (by decide) (by decide)
    exact ⟨s2, by simpa using h1, h2, h3, by simpa using h4⟩
  · exact (C4_close SourceImpl.make sampleEnv).1 (by decide)

/-- After `doSetupSourceStreams`, when the container started with its stream
count matching its stream list and not exceeding the context stream table,
the count equals the context stream-table size and still matches the list;
the lifecycle state is untouched. -/
theorem lem_doSetup_sync (s : SourceImpl) (ctx : AVFormatContext)
    (h0 : s.mNumStreams = (s.mStreams.length : Int))
    (h2 : s.mNumStreams ≤ (ctx.streams.length : Int)) :
    (s.doSetupSourceStreams ctx).2.mNumStreams = (ctx.streams.length : Int) ∧
    (s.doSetupSourceStreams ctx).2.mNumStreams =
      ((s.doSetupSourceStreams ctx).2.mStreams.length : Int) ∧
    (s.doSetupSourceStreams ctx).2.mState = s.mState := by
  have hnn : 0 ≤ s.mNumStreams := by
    rw [h0]; exact Int.ofNat_nonneg _
  unfold SourceImpl.doSetupSourceStreams
  by_cases he : s.mNumStreams = (ctx.streams.length : Int)
  · simp [he, h0.symm.trans he]
  · have hlt : ¬ s.mNumStreams < 0 := not_lt.mpr hnn
    simp only [he, if_false, hlt, List.length_append, List.length_map,
      List.length_drop]
    exact ⟨by omega, by omega, trivial⟩

/-- C10: with the container OPENED, PLAYING or PAUSED, `getSourceStream`
returns null (rather than raising) for every position at least the current
number of streams; a negative position is not caught by that check and
reaches the vector lookup, whose index conversion wraps and raises
`std::out_of_range` — so only non-negative out-of-range positions get the
null result. -/
theorem C10_getSourceStream (s : SourceImpl) (pos : Int) (ctx : AVFormatContext)
    (hs : isOpenedPlayingPaused s.mState = true)
    (hc : s.mCtx = some ctx)
    (h0 : s.mNumStreams = (s.mStreams.length : Int))
    (h2 : s.mNumStreams ≤ (ctx.streams.length : Int)) :
    ((ctx.streams.length : Int) ≤ pos →
      (s.getSourceStream pos).1 = Except.ok none) ∧
    (pos < 0 → (s.getSourceStream pos).1 = Except.error VError.outOfRange) := by
  unfold SourceImpl.getSourceStream
  rw [hc]
  simp only [hs, Bool.not_eq_true, if_false, Bool.true_eq_false]
  set s1 : SourceImpl :=
    (if (ctx.streams.length : Int) ≠ s.mNumStreams then
      (s.doSetupSourceStreams ctx).2 else s) with hs1
  have hcount : s1.mNumStreams = (ctx.streams.length : Int) ∧
      0 ≤ s1.mNumStreams := by
    rw [hs1]
    by_cases he : (ctx.streams.length : Int) ≠ s.mNumStreams
    · obtain ⟨ha, hb, -⟩ := lem_doSetup_sync s ctx h0 h2
      rw [if_pos he]
      exact ⟨ha, by rw [hb]; exact Int.ofNat_nonneg _⟩
    · rw [if_neg he]
      push_neg at he
      exact ⟨he.symm, by rw [h0]; exact Int.ofNat_nonneg _⟩
  constructor
  · intro hge
    have : ¬ pos < s1.mNumStreams := by
      rw [hcount.1]; exact not_lt.mpr hge
    simp [this]
  · intro hneg
    have hlt : pos < s1.mNumStreams := lt_of_lt_of_le hneg hcount.2
    simp [hlt, hneg]

/-- C10 witness: an OPENED container whose context holds two streams returns
null at position 2 and raises out-of-range at position -1. -/
theorem C10_getSourceStream_witness :
    (SourceImpl.getSourceStream
      { sampleOpened with
        mCtx := some { freshFormatCtx with
                        streams := [{ time_base_num := 1, time_base_den := 25 },
                                    { time_base_num := 1, time_base_den := 30 }] } }
      2).1 = Except.ok none ∧
    (SourceImpl.getSourceStream
      { sampleOpened with
        mCtx := some { freshFormatCtx with
                        streams := [{ time_base_num := 1, time_base_den := 25 },
                                    { time_base_num := 1, time_base_den := 30 }] } }
      (-1)).1 = Except.error VError.outOfRange := by
  constructor
  · exact (C10_getSourceStream _ 2 _ (by decide) rfl (by decide) (by decide)).1
      (by decide)
  · exact (C10_getSourceStream _ (-1) _ (by decide) rfl (by decide) (by decide)).2
      (by decide)

/-- `doSetupSourceStreams` preserves the lifecycle state and the
stream-info latch, always leaves a context in place with an unchanged
stream-table size, and leaves the counter outside `[0, table size)` — so a
repeated call cannot add streams again. -/

theorem lem_doSetup_post (s : SourceImpl) (ctx : AVFormatContext) :
    (s.doSetupSourceStreams ctx).2.mState = s.mState ∧
    (s.doSetupSourceStreams ctx).2.mStreamInfoGotten = s.mStreamInfoGotten ∧
    ((s.doSetupSourceStreams ctx).2.mCtx).isSome = true ∧
    ∀ ctx2, (s.doSetupSourceStreams ctx).2.mCtx = some ctx2 →
      ctx2.streams.length = ctx.streams.length ∧
      ¬(0 ≤ (s.doSetupSourceStreams ctx).2.mNumStreams ∧
        (s.doSetupSourceStreams ctx).2.mNumStreams < (ctx2.streams.length : Int)) := by
  unfold SourceImpl.doSetupSourceStreams
  by_cases he : s.mNumStreams = (ctx.streams.length : Int)
  · refine ⟨by simp [he], by simp [he], by simp [he], ?_⟩
    intro ctx2 hctx2
    simp only [he, ite_true] at hctx2 ⊢
    simp at hctx2
    subst hctx2
    simp
  · by_cases hneg : s.mNumStreams < 0
    · refine ⟨by simp [he], by simp [he], by simp [he], ?_⟩
      intro ctx2 hctx2
      simp only [he, ite_false, if_false] at hctx2 ⊢
      simp [hneg] at hctx2
      subst hctx2
      constructor
      · simp
      · simp [hneg]
    · refine ⟨by simp [he], by simp [he], by simp [he], ?_⟩
      intro ctx2 hctx2
      simp only [he, ite_false, if_false] at hctx2 ⊢
      simp [hneg] at hctx2
      subst hctx2
      constructor
      · simp
        omega
      · simp [hneg]

theorem lem_doSetup_noop (t : SourceImpl) (ctx : AVFormatContext)
    (hc : t.mCtx = some ctx)
    (hinv : ¬(0 ≤ t.mNumStreams ∧ t.mNumStreams < (ctx.streams.length : Int))) :
    (t.doSetupSourceStreams ctx).2 = t := by
  unfold SourceImpl.doSetupSourceStreams
  by_cases he : t.mNumStreams = (ctx.streams.length : Int)
  · simp only [he, ite_true]
    rw [← hc, ← he]
  · by_cases hneg : t.mNumStreams < 0
    · simp only [he, ite_false, if_false, hneg, ite_true, List.drop_length,
        List.map_nil, List.append_nil, List.take_length, List.length_nil,
        Nat.cast_zero, add_zero]
      rw [← hc]
    · have hlen : ctx.streams.length ≤ t.mNumStreams.toNat := by omega
      simp only [he, ite_false, if_false, hneg, List.drop_eq_nil_of_le hlen,
        List.map_nil, List.append_nil, List.take_of_length_le hlen,
        List.length_nil, Nat.cast_zero, add_zero]
      rw [← hc]

theorem lem_query_cached (t : SourceImpl) (ctx : AVFormatContext) (env2 : Env)
    (hs : isOpenedPlayingPaused t.mState = true)
    (hc : t.mCtx = some ctx)
    (hg : t.mStreamInfoGotten = true)
    (hinv : ¬(0 ≤ t.mNumStreams ∧ t.mNumStreams < (ctx.streams.length : Int))) :
    t.queryStreamMetaData env2 = (Except.ok 0, t) := by
  unfold SourceImpl.queryStreamMetaData
  rw [hc]
  simp only [hs, Bool.not_eq_true, if_false, hg, Bool.true_eq_false,
    Bool.not_true, not_false_iff, if_true, Bool.false_eq_true, ite_false,
    not_true_eq_false]
  by_cases hlen : 0 < ctx.streams.length
  · simp only [le_refl, hlen, and_self, ite_true]
    rw [lem_doSetup_noop t ctx hc hinv]
  · simp [hlen]

theorem lem_query_ok (s : SourceImpl) (env : Env) (r : Int) (s1 : SourceImpl)
    (hs : isOpenedPlayingPaused s.mState = true)
    (hq : s.queryStreamMetaData env = (Except.ok r, s1)) (hr : 0 ≤ r) :
    s1.mStreamInfoGotten = true ∧ s1.mState = s.mState ∧
    ∃ ctx2, s1.mCtx = some ctx2 ∧
      ¬(0 ≤ s1.mNumStreams ∧ s1.mNumStreams < (ctx2.streams.length : Int)) := by
  unfold SourceImpl.queryStreamMetaData at hq
  match hc : s.mCtx with
  | none => rw [hc] at hq; simp [hs] at hq
  | some ctx0 =>
    rw [hc] at hq
    by_cases hg : s.mStreamInfoGotten
    · by_cases hlen : 0 < ctx0.streams.length
      · simp [hs, hg, hlen] at hq
        obtain ⟨-, hq2⟩ := hq
        subst hq2
        obtain ⟨ha, hb, hsome, hrest⟩ := lem_doSetup_post s ctx0
        match hc2 : (s.doSetupSourceStreams ctx0).2.mCtx with
        | none => rw [hc2] at hsome; simp at hsome
        | some ctx2 =>
          exact ⟨by rw [hb, hg], ha, ctx2, rfl, (hrest ctx2 hc2).2⟩
      · simp [hs, hg, hlen] at hq
        obtain ⟨-, hq2⟩ := hq
        subst hq2
        refine ⟨hg, rfl, ctx0, hc, ?_⟩
        rintro ⟨h1, h2⟩
        omega
    · by_cases hfr : 0 ≤ env.findStreamInfoResult
      · by_cases hlen : 0 < env.streamsAfterQuery.length
        · simp [hs, hg, hfr, hlen] at hq
          obtain ⟨-, hq2⟩ := hq
          subst hq2
          obtain ⟨ha, hb, hsome, hrest⟩ :=
            lem_doSetup_post
              { s with mStreamInfoGotten := true,
                       mCtx := some { ctx0 with streams := env.streamsAfterQuery } }
              { ctx0 with streams := env.streamsAfterQuery }
          match hc2 : (SourceImpl.doSetupSourceStreams
              { s with mStreamInfoGotten := true,
                       mCtx := some { ctx0 with streams := env.streamsAfterQuery } }
              { ctx0 with streams := env.streamsAfterQuery }).2.mCtx with
          | none => rw [hc2] at hsome; simp at hsome
          | some ctx2 =>
            exact ⟨by rw [hb], by rw [ha], ctx2, rfl, (hrest ctx2 hc2).2⟩
        · simp [hs, hg, hfr, hlen] at hq
          obtain ⟨-, hq2⟩ := hq
          subst hq2
          refine ⟨rfl, rfl, _, rfl, ?_⟩
          rintro ⟨h1, h2⟩
          simp at h1 h2
          omega
      · simp [hs, hg, hfr] at hq
        obtain ⟨hq1, -⟩ := hq
        omega

/-- C6: `queryStreamMetaData` raises a runtime error unless the state is
OPENED, PLAYING or PAUSED; after one successful call every subsequent call —
in any environment, so without querying the library again — returns 0 and
leaves the container exactly as the first call left it (idempotence). -/
theorem C6_queryStreamMetaData (s : SourceImpl) (env1 env2 : Env) :
    (¬ isOpenedPlayingPaused s.mState = true →
      ∃ msg, s.queryStreamMetaData env1 =
        (Except.error (VError.runtimeError msg), s)) ∧
    (isOpenedPlayingPaused s.mState = true →
      ∀ r s1, s.queryStreamMetaData env1 = (Except.ok r, s1) → 0 ≤ r →
        s1.queryStreamMetaData env2 = (Except.ok 0, s1)) := by
  constructor
  · intro h
    refine ⟨"Attempt to query stream information from container when not opened, playing or paused", ?_⟩
    simp [SourceImpl.queryStreamMetaData, h]
  · intro hs r s1 hq hr
    obtain ⟨hg, hstate, ctx2, hc2, hinv⟩ := lem_query_ok s env1 r s1 hs hq hr
    exact lem_query_cached s1 ctx2 env2 (by rw [hstate]; exact hs) hc2 hg hinv

/-- C6 witness: after a successful metadata query on an OPENED container,
a second query in an environment whose library query would fail still
returns 0 and changes nothing. -/
theorem C6_queryStreamMetaData_witness :
    SourceImpl.queryStreamMetaData
        (sampleOpened.queryStreamMetaData sampleEnv).2
        { sampleEnv with findStreamInfoResult := -5 } =
      (Except.ok 0, (sampleOpened.queryStreamMetaData sampleEnv).2) :=
  (C6_queryStreamMetaData sampleOpened sampleEnv
      { sampleEnv with findStreamInfoResult := -5 }).2 (by decide) 0
    (sampleOpened.queryStreamMetaData sampleEnv).2 rfl (by decide)

theorem lem_doSetup_frame (s : SourceImpl) (ctx : AVFormatContext) :
    framePreserved s (s.doSetupSourceStreams ctx).2 := by
  unfold SourceImpl.doSetupSourceStreams
  split <;> exact ⟨rfl, rfl⟩

theorem lem_getNumStreams_frame (s : SourceImpl) :
    framePreserved s s.getNumStreams.2 := by
  unfold SourceImpl.getNumStreams
  split
  · exact ⟨rfl, rfl⟩
  · split
    · exact ⟨rfl, rfl⟩
    · split
      · exact lem_doSetup_frame s _
      · exact ⟨rfl, rfl⟩

theorem lem_getSourceStream_frame (s : SourceImpl) (pos : Int) :
    framePreserved s (s.getSourceStream pos).2 := by
  unfold SourceImpl.getSourceStream
  split
  · exact ⟨rfl, rfl⟩
  · split
    · exact ⟨rfl, rfl⟩
    · dsimp only
      split
      · split
        · split
          · exact lem_doSetup_frame s _
          · split <;> exact lem_doSetup_frame s _
        · exact lem_doSetup_frame s _
      · split
        · split
          · exact ⟨rfl, rfl⟩
          · split <;> exact ⟨rfl, rfl⟩
        · exact ⟨rfl, rfl⟩

theorem lem_doSetup_mState (t : SourceImpl) (ctx : AVFormatContext) :
    (t.doSetupSourceStreams ctx).2.mState = t.mState :=
  (lem_doSetup_frame t ctx).1

theorem lem_doSetup_rrm (t : SourceImpl) (ctx : AVFormatContext) :
    (t.doSetupSourceStreams ctx).2.mReadRetryMax = t.mReadRetryMax :=
  (lem_doSetup_frame t ctx).2

theorem lem_query_frame (s : SourceImpl) (env : Env) :
    framePreserved s (s.queryStreamMetaData env).2 := by
  unfold SourceImpl.queryStreamMetaData
  split
  · exact ⟨rfl, rfl⟩
  · split
    · exact ⟨rfl, rfl⟩
    · dsimp only
      split <;> split <;> (try split) <;>
        simp [framePreserved, lem_doSetup_mState, lem_doSetup_rrm]

theorem lem_read_frame (s : SourceImpl) (arg : PacketArg) (env : Env)
    (res : Except VError Int × SourceImpl × PacketArg)
    (h : s.read arg env = some res) : framePreserved s res.2.1 := by
  unfold SourceImpl.read at h
  revert h
  split
  · intro h
    simp only [Option.some.injEq] at h
    cases h
    exact ⟨rfl, rfl⟩
  · split
    · intro h
      simp only [Option.some.injEq] at h
      cases h
      exact ⟨rfl, rfl⟩
    · split
      · intro h
        simp at h
      · dsimp only
        split
        · split
          · split
            · intro h
              simp only [Option.some.injEq] at h
              cases h
              exact lem_getSourceStream_frame _ _
            · intro h
              simp only [Option.some.injEq] at h
              cases h
              exact lem_getSourceStream_frame _ _
          · intro h
            simp only [Option.some.injEq] at h
            cases h
            exact ⟨rfl, rfl⟩
        · intro h
          simp only [Option.some.injEq] at h
          cases h
          exact ⟨rfl, rfl⟩

/-- `close`: either the guard rejected (container unchanged) or the state
moved to CLOSED on a non-negative result and ERROR on a negative one; the
retry bound is never touched. -/
theorem lem_close_cases (s : SourceImpl) (env : Env) :
    (s.close env).2.1.mReadRetryMax = s.mReadRetryMax ∧
    ((s.close env).2.1.mState = s.mState ∨
      (isOpenedPlayingPaused s.mState = true ∧
        ∃ v, (s.close env).1 = Except.ok v ∧
          ((0 ≤ v ∧ (s.close env).2.1.mState = ContainerState.CLOSED) ∨
           (v < 0 ∧ (s.close env).2.1.mState = ContainerState.ERROR)))) := by
  unfold SourceImpl.close
  split
  · exact ⟨rfl, Or.inl rfl⟩
  · rename_i hguard
    rw [Bool.not_eq_true, Bool.not_eq_false] at hguard
    dsimp only
    split
    · exact ⟨rfl, Or.inl rfl⟩
    · dsimp only [SourceImpl.doCloseFileHandles]
      split
      · split
        · rename_i hneg
          exact ⟨rfl, Or.inr ⟨hguard, _, rfl, Or.inr ⟨hneg, rfl⟩⟩⟩
        · rename_i hneg
          exact ⟨rfl, Or.inr ⟨hguard, _, rfl, Or.inl ⟨by omega, rfl⟩⟩⟩
      · split
        · rename_i hneg
          exact ⟨rfl, Or.inr ⟨hguard, _, rfl, Or.inr ⟨hneg, rfl⟩⟩⟩
        · rename_i hneg
          exact ⟨rfl, Or.inr ⟨hguard, _, rfl, Or.inl ⟨by omega, rfl⟩⟩⟩

/-- `pause`: either the container is unchanged, or it was PLAYING, the
library call succeeded and the state is now PAUSED. -/
theorem lem_pause_cases (s : SourceImpl) (env : Env) :
    (s.pause env).2.mReadRetryMax = s.mReadRetryMax ∧
    ((s.pause env).2.mState = s.mState ∨
      (s.mState = ContainerState.PLAYING ∧
        (s.pause env).1 = Except.ok env.avReadPauseResult ∧
        0 ≤ env.avReadPauseResult ∧
        (s.pause env).2.mState = ContainerState.PAUSED)) := by
  unfold SourceImpl.pause
  split
  · exact ⟨rfl, Or.inl rfl⟩
  · rename_i hst
    rw [not_not] at hst
    split
    · exact ⟨rfl, Or.inl rfl⟩
    · dsimp only
      split
      · rename_i hok
        exact ⟨rfl, Or.inr ⟨hst, rfl, hok, rfl⟩⟩
      · exact ⟨rfl, Or.inl rfl⟩

/-- `play` always raises: its guard is a tautology. -/
theorem lem_play_id (s : SourceImpl) (env : Env) :
    s.play env = (Except.error (VError.runtimeError
      "Can only play containers in OPENED or PAUSED states"), s) := by
  unfold SourceImpl.play
  have : s.mState ≠ ContainerState.PAUSED ∨ s.mState ≠ ContainerState.OPENED := by
    cases s.mState <;> simp
  rw [if_pos this]

/-- `seek` never mutates the container. -/
theorem lem_seek_id (s : SourceImpl) (a b c d e : Int) (env : Env) :
    (s.seek a b c d e env).2 = s := by
  unfold SourceImpl.seek
  split
  · rfl
  · split <;> rfl

theorem lem_getFileSize_id (s : SourceImpl) (env : Env) :
    (s.getFileSize env).2 = s := by
  unfold SourceImpl.getFileSize
  split
  · rfl
  · split <;> (try split) <;> rfl

theorem lem_getters_id (s : SourceImpl) :
    s.getDuration.2 = s ∧ s.getStartTime.2 = s ∧ s.getBitRate.2 = s ∧
    s.getFlags.2 = s ∧ s.getURL.2 = s ∧ s.canStreamsBeAddedDynamically.2 = s ∧
    s.getMaxDelay.2 = s := by
  unfold SourceImpl.getDuration SourceImpl.getStartTime SourceImpl.getBitRate
    SourceImpl.getFlags SourceImpl.getURL SourceImpl.canStreamsBeAddedDynamically
    SourceImpl.getMaxDelay
  refine ⟨?_, ?_, ?_, ?_, ?_, ?_, ?_⟩ <;> (split <;> rfl)

theorem lem_getFlag_id (s : SourceImpl) (f : Int) : (s.getFlag f).2 = s := by
  unfold SourceImpl.getFlag
  split <;> rfl

theorem lem_setters_frame (s : SourceImpl) (x : Int) (v : Bool) :
    framePreserved s (s.setFlags x).2 ∧ framePreserved s (s.setFlag x v).2 ∧
    framePreserved s (s.setForcedAudioCodec x).2 ∧
    framePreserved s (s.setForcedVideoCodec x).2 ∧
    framePreserved s (s.setForcedSubtitleCodec x).2 ∧
    framePreserved s s.getMetaData.2 ∧
    framePreserved s (s.setInputBufferLength x).2 := by
  unfold SourceImpl.setFlags SourceImpl.setFlag SourceImpl.setForcedAudioCodec
    SourceImpl.setForcedVideoCodec SourceImpl.setForcedSubtitleCodec
    SourceImpl.getMetaData SourceImpl.setInputBufferLength
  refine ⟨?_, ?_, ?_, ?_, ?_, ?_, ?_⟩ <;>
    (split <;> (try split) <;> exact ⟨rfl, rfl⟩)

theorem lem_setReadRetryCount_state (s : SourceImpl) (count : Int) :
    (s.setReadRetryCount count).mState = s.mState := by
  unfold SourceImpl.setReadRetryCount
  split <;> rfl

theorem lem_setReadRetryCount_nonneg (s : SourceImpl) (count : Int)
    (h : 0 ≤ s.mReadRetryMax) : 0 ≤ (s.setReadRetryCount count).mReadRetryMax := by
  unfold SourceImpl.setReadRetryCount
  split
  · rename_i hcount
    exact hcount
  · exact h

theorem lem_doCloseFileHandles_frame (s : SourceImpl) (env : Env) :
    framePreserved s (s.doCloseFileHandles env).2 := by
  unfold SourceImpl.doCloseFileHandles
  split <;> exact ⟨rfl, rfl⟩

/-- In OPENED, PLAYING or PAUSED state with a live context,
`queryStreamMetaData` cannot throw. -/
theorem lem_query_opened_ok (t : SourceImpl) (env : Env) (c : AVFormatContext)
    (hs : isOpenedPlayingPaused t.mState = true) (hc : t.mCtx = some c) :
    ∃ r2 t2, t.queryStreamMetaData env = (Except.ok r2, t2) := by
  unfold SourceImpl.queryStreamMetaData
  rw [hc]
  rw [if_neg (by simp [hs])]
  dsimp only
  by_cases hg : t.mStreamInfoGotten <;>
    by_cases hfr : 0 ≤ env.findStreamInfoResult <;>
    simp [hg, hfr] <;>
    split <;> exact ⟨_, _, rfl⟩

theorem lem_query_frame2 (t : SourceImpl) (env : Env)
    (r : Except VError Int) (t2 : SourceImpl)
    (h : t.queryStreamMetaData env = (r, t2)) : framePreserved t t2 := by
  have hf := lem_query_frame t env
  rw [h] at hf
  exact hf

/-- `queryStreamMetaData` can raise only when the guard fails or the context
is null. -/
theorem lem_query_error_shape (t : SourceImpl) (env : Env) (e : VError)
    (t2 : SourceImpl)
    (h : t.queryStreamMetaData env = (Except.error e, t2)) :
    isOpenedPlayingPaused t.mState = false ∨ t.mCtx = none := by
  by_cases hs : isOpenedPlayingPaused t.mState
  · match hc : t.mCtx with
    | none => exact Or.inr rfl
    | some c =>
      obtain ⟨r2, q2, heq⟩ := lem_query_opened_ok t env c hs hc
      rw [heq] at h
      cases h
  · exact Or.inl (by simpa using hs)

theorem lem_doOpen_frame (t : SourceImpl) (url : Option String)
    (ctx : AVFormatContext) (env : Env) :
    framePreserved t (t.doOpen url ctx env).2.1 := by
  unfold SourceImpl.doOpen
  dsimp only
  split <;> split <;> (try split) <;>
    first
      | exact ⟨rfl, rfl⟩
      | exact lem_doCloseFileHandles_frame t env

/-- `openFinish` always returns a plain value: non-negative with the
container OPENED, negative with the container in ERROR; the retry bound is
untouched. -/
theorem lem_openFinish_cases (t : SourceImpl) (url : Option String)
    (oldf : Option InputFormat) (ctx : AVFormatContext) (dyn qm : Bool)
    (env : Env) :
    (SourceImpl.openFinish t url oldf ctx dyn qm env).2.mReadRetryMax =
      t.mReadRetryMax ∧
    ∃ v, (SourceImpl.openFinish t url oldf ctx dyn qm env).1 = Except.ok v ∧
      ((0 ≤ v ∧ (SourceImpl.openFinish t url oldf ctx dyn qm env).2.mState =
          ContainerState.OPENED) ∨
       (v < 0 ∧ (SourceImpl.openFinish t url oldf ctx dyn qm env).2.mState =
          ContainerState.ERROR)) := by
  unfold SourceImpl.openFinish
  dsimp only
  split
  · rename_i hret
    split
    · exact ⟨(lem_doOpen_frame t url ctx env).2, _, rfl, Or.inl ⟨hret, rfl⟩⟩
    · rename_i ctxo hctxo
      split
      · -- queryMetaData branch
        split
        · rename_i r2 s5 heq
          have hf := lem_query_frame2 _ env _ s5 heq
          split
          · rename_i hneg
            exact ⟨hf.2.trans (lem_doOpen_frame t url ctx env).2, _, rfl,
              Or.inr ⟨hneg, rfl⟩⟩
          · rename_i hneg
            refine ⟨hf.2.trans (lem_doOpen_frame t url ctx env).2, _, rfl,
              Or.inl ⟨by omega, ?_⟩⟩
            exact hf.1
        · rename_i e s5 heq
          rcases lem_query_error_shape _ env e s5 heq with hbad | hbad <;>
            simp [isOpenedPlayingPaused] at hbad
      · exact ⟨(lem_doOpen_frame t url ctx env).2, _, rfl, Or.inl ⟨hret, rfl⟩⟩
  · rename_i hret
    exact ⟨(lem_doOpen_frame t url ctx env).2, _, rfl,
      Or.inr ⟨by omega, rfl⟩⟩

/-- `open`: either the container is unchanged, or it started INITED and a
plain value came back — non-negative with the container OPENED, negative with
the container in ERROR; the retry bound is untouched. -/
theorem lem_open_cases (s : SourceImpl) (url : Option String)
    (fmt : Option SourceFormatModel) (dyn qm : Bool) (env : Env) :
    (s.open url fmt dyn qm env).2.mReadRetryMax = s.mReadRetryMax ∧
    ((s.open url fmt dyn qm env).2 = s ∨
      (s.mState = ContainerState.INITED ∧
        ∃ v, (s.open url fmt dyn qm env).1 = Except.ok v ∧
          ((0 ≤ v ∧ (s.open url fmt dyn qm env).2.mState =
              ContainerState.OPENED) ∨
           (v < 0 ∧ (s.open url fmt dyn qm env).2.mState =
              ContainerState.ERROR)))) := by
  unfold SourceImpl.open
  split
  · exact ⟨rfl, Or.inl rfl⟩
  · split
    · exact ⟨rfl, Or.inl rfl⟩
    · rename_i hstate
      rw [not_not] at hstate
      split
      · exact ⟨rfl, Or.inl rfl⟩
      · dsimp only
        split
        · split
          · exact ⟨rfl, Or.inr ⟨hstate, -1, rfl, Or.inr ⟨by omega, rfl⟩⟩⟩
          · split
            · exact ⟨rfl, Or.inr ⟨hstate, -1, rfl, Or.inr ⟨by omega, rfl⟩⟩⟩
            · obtain ⟨hrrm, v, hv, hcase⟩ := lem_openFinish_cases _ url _ _ dyn qm env
              exact ⟨hrrm, Or.inr ⟨hstate, v, hv, hcase⟩⟩
        · obtain ⟨hrrm, v, hv, hcase⟩ := lem_openFinish_cases _ url _ _ dyn qm env
          exact ⟨hrrm, Or.inr ⟨hstate, v, hv, hcase⟩⟩

/-- Splitting a pair equation into component equations. -/
theorem lem_pair_eq {A B : Type} {p : A × B} {r : A} {s2 : B}
    (h : p = (r, s2)) : p.1 = r ∧ p.2 = s2 := by
  rw [h]
  exact ⟨rfl, rfl⟩

/-- Master characterization of one `step`: the retry bound stays
non-negative, and the state either stays put or makes one of the four
transition families (`open`, `close`, `pause`; `play` never transitions). -/
theorem lem_step_cases (s : SourceImpl) (op : Op) (env : Env)
    (r : Except VError Int) (s2 : SourceImpl)
    (h : step s op env = some (r, s2)) :
    (0 ≤ s.mReadRetryMax → 0 ≤ s2.mReadRetryMax) ∧
    (s2.mState = s.mState ∨
     ((∃ url fmt dyn qm, op = Op.opOpen url fmt dyn qm) ∧
        s.mState = ContainerState.INITED ∧
        ∃ v, r = Except.ok v ∧
          ((0 ≤ v ∧ s2.mState = ContainerState.OPENED) ∨
           (v < 0 ∧ s2.mState = ContainerState.ERROR))) ∨
     (op = Op.opClose ∧ isOpenedPlayingPaused s.mState = true ∧
        ∃ v, r = Except.ok v ∧
          ((0 ≤ v ∧ s2.mState = ContainerState.CLOSED) ∨
           (v < 0 ∧ s2.mState = ContainerState.ERROR))) ∨
     (op = Op.opPause ∧ s.mState = ContainerState.PLAYING ∧
        r = Except.ok env.avReadPauseResult ∧ 0 ≤ env.avReadPauseResult ∧
        s2.mState = ContainerState.PAUSED)) := by
  cases op with
  | opOpen url fmt dyn qm =>
    simp only [step, Option.some.injEq] at h
    obtain ⟨hr, hs2⟩ := lem_pair_eq h
    subst hs2
    subst hr
    obtain ⟨hrrm, hdisj⟩ := lem_open_cases s url fmt dyn qm env
    refine ⟨fun hn => by rw [hrrm]; exact hn, ?_⟩
    rcases hdisj with heq | ⟨hst, v, hv, hc⟩
    · exact Or.inl (congrArg SourceImpl.mState heq)
    · exact Or.inr (Or.inl ⟨⟨url, fmt, dyn, qm, rfl⟩, hst, v, hv, hc⟩)
  | opClose =>
    simp only [step, Option.some.injEq] at h
    obtain ⟨hr, hs2⟩ := lem_pair_eq h
    subst hs2
    subst hr
    obtain ⟨hrrm, hdisj⟩ := lem_close_cases s env
    refine ⟨fun hn => by rw [hrrm]; exact hn, ?_⟩
    rcases hdisj with heq | ⟨hg, v, hv, hc⟩
    · exact Or.inl heq
    · rcases hc with ⟨hv0, hcl⟩ | ⟨hv0, hcl⟩
      · exact Or.inr (Or.inr (Or.inl ⟨rfl, hg, v, hv, Or.inl ⟨hv0, hcl⟩⟩))
      · exact Or.inr (Or.inr (Or.inl ⟨rfl, hg, v, hv, Or.inr ⟨hv0, hcl⟩⟩))
  | opRead arg =>
    simp only [step] at h
    rcases hread : s.read arg env with _ | res
    · rw [hread] at h
      cases h
    · rw [hread] at h
      simp only [Option.some.injEq, Prod.mk.injEq] at h
      obtain ⟨hr, hs2⟩ := h
      subst hs2
      obtain ⟨hstate, hrrm⟩ := lem_read_frame s arg env res hread
      exact ⟨fun hn => by rw [hrrm]; exact hn, Or.inl hstate⟩
  | opSeek a b c d e =>
    simp only [step, Option.some.injEq] at h
    obtain ⟨hr, hs2⟩ := lem_pair_eq h
    subst hs2
    rw [lem_seek_id]
    exact ⟨fun hn => hn, Or.inl rfl⟩
  | opPause =>
    simp only [step, Option.some.injEq] at h
    obtain ⟨hr, hs2⟩ := lem_pair_eq h
    subst hs2
    subst hr
    obtain ⟨hrrm, hdisj⟩ := lem_pause_cases s env
    refine ⟨fun hn => by rw [hrrm]; exact hn, ?_⟩
    rcases hdisj with heq | ⟨hst, hv, h0, hps⟩
    · exact Or.inl heq
    · exact Or.inr (Or.inr (Or.inr ⟨rfl, hst, hv, h0, hps⟩))
  | opPlay =>
    simp only [step, Option.some.injEq] at h
    obtain ⟨hr, hs2⟩ := lem_pair_eq h
    subst hs2
    rw [lem_play_id]
    exact ⟨fun hn => hn, Or.inl rfl⟩
  | opQueryStreamMetaData =>
    simp only [step, Option.some.injEq] at h
    obtain ⟨hr, hs2⟩ := lem_pair_eq h
    subst hs2
    obtain ⟨hstate, hrrm⟩ := lem_query_frame s env
    exact ⟨fun hn => by rw [hrrm]; exact hn, Or.inl hstate⟩
  | opGetNumStreams =>
    simp only [step, Option.some.injEq] at h
    obtain ⟨hr, hs2⟩ := lem_pair_eq h
    subst hs2
    obtain ⟨hstate, hrrm⟩ := lem_getNumStreams_frame s
    exact ⟨fun hn => by rw [hrrm]; exact hn, Or.inl hstate⟩
  | opGetSourceStream pos =>
    simp only [step, Option.some.injEq] at h
    obtain ⟨hr, hs2⟩ := lem_pair_eq h
    subst hs2
    obtain ⟨hstate, hrrm⟩ := lem_getSourceStream_frame s pos
    exact ⟨fun hn => by rw [hrrm]; exact hn, Or.inl hstate⟩
  | opSetInputBufferLength size =>
    simp only [step, Option.some.injEq] at h
    obtain ⟨hr, hs2⟩ := lem_pair_eq h
    subst hs2
    obtain ⟨hstate, hrrm⟩ := (lem_setters_frame s size false).2.2.2.2.2.2
    exact ⟨fun hn => by rw [hrrm]; exact hn, Or.inl hstate⟩
  | opGetInputBufferLength =>
    simp only [step, Option.some.injEq] at h
    obtain ⟨hr, hs2⟩ := lem_pair_eq h
    subst hs2
    exact ⟨fun hn => hn, Or.inl rfl⟩
  | opSetReadRetryCount count =>
    simp only [step, Option.some.injEq] at h
    obtain ⟨hr, hs2⟩ := lem_pair_eq h
    subst hs2
    exact ⟨lem_setReadRetryCount_nonneg s count,
      Or.inl (lem_setReadRetryCount_state s count)⟩
  | opGetReadRetryCount =>
    simp only [step, Option.some.injEq] at h
    obtain ⟨hr, hs2⟩ := lem_pair_eq h
    subst hs2
    exact ⟨fun hn => hn, Or.inl rfl⟩
  | opGetDuration =>
    simp only [step, Option.some.injEq] at h
    obtain ⟨hr, hs2⟩ := lem_pair_eq h
    subst hs2
    rw [(lem_getters_id s).1]
    exact ⟨fun hn => hn, Or.inl rfl⟩
  | opGetStartTime =>
    simp only [step, Option.some.injEq] at h
    obtain ⟨hr, hs2⟩ := lem_pair_eq h
    subst hs2
    rw [(lem_getters_id s).2.1]
    exact ⟨fun hn => hn, Or.inl rfl⟩
  | opGetFileSize =>
    simp only [step, Option.some.injEq] at h
    obtain ⟨hr, hs2⟩ := lem_pair_eq h
    subst hs2
    rw [lem_getFileSize_id]
    exact ⟨fun hn => hn, Or.inl rfl⟩
  | opGetBitRate =>
    simp only [step, Option.some.injEq] at h
    obtain ⟨hr, hs2⟩ := lem_pair_eq h
    subst hs2
    rw [(lem_getters_id s).2.2.1]
    exact ⟨fun hn => hn, Or.inl rfl⟩
  | opGetFlags =>
    simp only [step, Option.some.injEq] at h
    obtain ⟨hr, hs2⟩ := lem_pair_eq h
    subst hs2
    rw [(lem_getters_id s).2.2.2.1]
    exact ⟨fun hn => hn, Or.inl rfl⟩
  | opSetFlags f =>
    simp only [step, Option.some.injEq] at h
    obtain ⟨hr, hs2⟩ := lem_pair_eq h
    subst hs2
    obtain ⟨hstate, hrrm⟩ := (lem_setters_frame s f false).1
    exact ⟨fun hn => by rw [hrrm]; exact hn, Or.inl hstate⟩
  | opGetFlag f =>
    simp only [step, Option.some.injEq] at h
    obtain ⟨hr, hs2⟩ := lem_pair_eq h
    subst hs2
    rw [lem_getFlag_id]
    exact ⟨fun hn => hn, Or.inl rfl⟩
  | opSetFlag f v =>
    simp only [step, Option.some.injEq] at h
    obtain ⟨hr, hs2⟩ := lem_pair_eq h
    subst hs2
    obtain ⟨hstate, hrrm⟩ := (lem_setters_frame s f v).2.1
    exact ⟨fun hn => by rw [hrrm]; exact hn, Or.inl hstate⟩
  | opGetURL =>
    simp only [step, Option.some.injEq] at h
    obtain ⟨hr, hs2⟩ := lem_pair_eq h
    subst hs2
    rw [(lem_getters_id s).2.2.2.2.1]
    exact ⟨fun hn => hn, Or.inl rfl⟩
  | opCanStreamsBeAddedDynamically =>
    simp only [step, Option.some.injEq] at h
    obtain ⟨hr, hs2⟩ := lem_pair_eq h
    subst hs2
    rw [(lem_getters_id s).2.2.2.2.2.1]
    exact ⟨fun hn => hn, Or.inl rfl⟩
  | opGetMetaData =>
    simp only [step, Option.some.injEq] at h
    obtain ⟨hr, hs2⟩ := lem_pair_eq h
    subst hs2
    obtain ⟨hstate, hrrm⟩ := (lem_setters_frame s 0 false).2.2.2.2.2.1
    exact ⟨fun hn => by rw [hrrm]; exact hn, Or.inl hstate⟩
  | opSetForcedAudioCodec id =>
    simp only [step, Option.some.injEq] at h
    obtain ⟨hr, hs2⟩ := lem_pair_eq h
    subst hs2
    obtain ⟨hstate, hrrm⟩ := (lem_setters_frame s id false).2.2.1
    exact ⟨fun hn => by rw [hrrm]; exact hn, Or.inl hstate⟩
  | opSetForcedVideoCodec id =>
    simp only [step, Option.some.injEq] at h
    obtain ⟨hr, hs2⟩ := lem_pair_eq h
    subst hs2
    obtain ⟨hstate, hrrm⟩ := (lem_setters_frame s id false).2.2.2.1
    exact ⟨fun hn => by rw [hrrm]; exact hn, Or.inl hstate⟩
  | opSetForcedSubtitleCodec id =>
    simp only [step, Option.some.injEq] at h
    obtain ⟨hr, hs2⟩ := lem_pair_eq h
    subst hs2
    obtain ⟨hstate, hrrm⟩ := (lem_setters_frame s id false).2.2.2.2.1
    exact ⟨fun hn => by rw [hrrm]; exact hn, Or.inl hstate⟩
  | opGetMaxDelay =>
    simp only [step, Option.some.injEq] at h
    obtain ⟨hr, hs2⟩ := lem_pair_eq h
    subst hs2
    rw [(lem_getters_id s).2.2.2.2.2.2]
    exact ⟨fun hn => hn, Or.inl rfl⟩

/-- C1: a freshly made container is INITED, and every public operation
either leaves the state unchanged or makes one of the listed transitions:
INITED to OPENED on successful `open`, INITED to ERROR on failed `open`,
OPENED/PLAYING/PAUSED to CLOSED on successful `close` or to ERROR on failed
`close`, and PLAYING to PAUSED on successful `pause` (a successful `play`
would move OPENED or PAUSED to PLAYING, but `play` never succeeds, so no
transition outside this list can occur; the state always stays inside the
six-value `ContainerState` type). -/
theorem C1_state_machine :
    SourceImpl.make.mState = ContainerState.INITED ∧
    ∀ (s : SourceImpl) (op : Op) (env : Env) (r : Except VError Int)
      (s2 : SourceImpl), step s op env = some (r, s2) →
      (s2.mState = s.mState ∨
       ((∃ url fmt dyn qm, op = Op.opOpen url fmt dyn qm) ∧
          s.mState = ContainerState.INITED ∧
          ∃ v, r = Except.ok v ∧
            ((0 ≤ v ∧ s2.mState = ContainerState.OPENED) ∨
             (v < 0 ∧ s2.mState = ContainerState.ERROR))) ∨
       (op = Op.opClose ∧ isOpenedPlayingPaused s.mState = true ∧
          ∃ v, r = Except.ok v ∧
            ((0 ≤ v ∧ s2.mState = ContainerState.CLOSED) ∨
             (v < 0 ∧ s2.mState = ContainerState.ERROR))) ∨
       (op = Op.opPause ∧ s.mState = ContainerState.PLAYING ∧
          r = Except.ok env.avReadPauseResult ∧ 0 ≤ env.avReadPauseResult ∧
          s2.mState = ContainerState.PAUSED)) :=
  ⟨rfl, fun s op env r s2 h => (lem_step_cases s op env r s2 h).2⟩

/-- C1 witness: closing a concrete OPENED container makes the allowed
OPENED-to-CLOSED transition. -/
theorem C1_state_machine_witness :
    SourceImpl.make.mState = ContainerState.INITED ∧
    (sampleClosed.mState = sampleOpened.mState ∨
     ((∃ url fmt dyn qm, Op.opClose = Op.opOpen url fmt dyn qm) ∧
        sampleOpened.mState = ContainerState.INITED ∧
        ∃ v, (Except.ok 0 : Except VError Int) = Except.ok v ∧
          ((0 ≤ v ∧ sampleClosed.mState = ContainerState.OPENED) ∨
           (v < 0 ∧ sampleClosed.mState = ContainerState.ERROR))) ∨
     (Op.opClose = Op.opClose ∧ isOpenedPlayingPaused sampleOpened.mState = true ∧
        ∃ v, (Except.ok 0 : Except VError Int) = Except.ok v ∧
          ((0 ≤ v ∧ sampleClosed.mState = ContainerState.CLOSED) ∨
           (v < 0 ∧ sampleClosed.mState = ContainerState.ERROR))) ∨
     (Op.opClose = Op.opPause ∧ sampleOpened.mState = ContainerState.PLAYING ∧
        (Except.ok 0 : Except VError Int) = Except.ok sampleEnv.avReadPauseResult ∧
        0 ≤ sampleEnv.avReadPauseResult ∧
        sampleClosed.mState = ContainerState.PAUSED)) :=
  ⟨C1_state_machine.1,
   C1_state_machine.2 sampleOpened Op.opClose sampleEnv (Except.ok 0)
     sampleClosed rfl⟩

/-- C8: `play` raises unconditionally — its guard
`mState != PAUSED || mState != OPENED` holds in every one of the six
states — and consequently, since `pause` demands the PLAYING state, the
states PLAYING and PAUSED are unreachable through the public API from a
freshly made container. -/
theorem C8_play_unreachable :
    (∀ (s : SourceImpl) (env : Env),
      s.play env = (Except.error (VError.runtimeError
        "Can only play containers in OPENED or PAUSED states"), s)) ∧
    (∀ s : SourceImpl, Reachable s →
      s.mState ≠ ContainerState.PLAYING ∧ s.mState ≠ ContainerState.PAUSED) := by
  refine ⟨lem_play_id, ?_⟩
  intro s hs
  induction hs with
  | init => exact ⟨by decide, by decide⟩
  | next hprev hstep ih =>
    rename_i s1 op env r s2
    rcases (lem_step_cases s1 op env r s2 hstep).2 with
      heq | ⟨-, -, v, -, hc⟩ | ⟨-, -, v, -, hc⟩ | ⟨-, hpl, -⟩
    · rw [heq]; exact ih
    · rcases hc with ⟨-, h2⟩ | ⟨-, h2⟩ <;> rw [h2] <;>
        exact ⟨by decide, by decide⟩
    · rcases hc with ⟨-, h2⟩ | ⟨-, h2⟩ <;> rw [h2] <;>
        exact ⟨by decide, by decide⟩
    · exact absurd hpl ih.1

/-- C8 witness: `play` rejects a concrete OPENED container, and the freshly
made container (trivially reachable) is neither PLAYING nor PAUSED. -/
theorem C8_play_unreachable_witness :
    sampleOpened.play sampleEnv = (Except.error (VError.runtimeError
      "Can only play containers in OPENED or PAUSED states"), sampleOpened) ∧
    (SourceImpl.make.mState ≠ ContainerState.PLAYING ∧
     SourceImpl.make.mState ≠ ContainerState.PAUSED) :=
  ⟨C8_play_unreachable.1 sampleOpened sampleEnv,
   C8_play_unreachable.2 SourceImpl.make Reachable.init⟩

/-- With a non-negative retry bound, the retry loop exits within the fuel as
soon as the fuel exceeds `retryMax - reads`: it performs at least one more
read, at most up to read `retryMax + 1` overall, every read before the last
returned `AVERROR(EAGAIN)`, and the loop result is the last read result. -/
theorem lem_readLoop_terminates (retryMax : Int) (results : Nat → Int)
    (hnn : 0 ≤ retryMax) :
    ∀ (fuel reads : Nat), 1 ≤ fuel → retryMax < (reads : Int) + (fuel : Int) →
    ∃ n r, readLoopFuel retryMax results fuel reads = some (n, r) ∧
      reads + 1 ≤ n ∧ ((n : Int) ≤ retryMax + 1 ∨ n = reads + 1) ∧
      (∀ k, reads ≤ k → k + 1 < n → results k = AVERROR_EAGAIN) ∧
      r = results (n - 1) := by
  intro fuel
  induction fuel with
  | zero => intro reads h1 h2; omega
  | succ f ih =>
    intro reads h1 h2
    unfold readLoopFuel
    dsimp only
    split
    · rename_i hcond
      have hle : ((reads : Int) + 1) ≤ retryMax := by
        rcases hcond.2 with h | h
        · omega
        · push_cast at h; omega
      have hf1 : 1 ≤ f := by omega
      obtain ⟨n, r, heq, hlow, hup, heag, hr⟩ :=
        ih (reads + 1) hf1 (by push_cast; push_cast at h2; omega)
      refine ⟨n, r, heq, by omega, ?_, ?_, hr⟩
      · rcases hup with h | h
        · exact Or.inl h
        · subst h
          push_cast
          omega
      · intro k hk hkn
        rcases Nat.eq_or_lt_of_le hk with hk2 | hk2
        · rw [← hk2]; exact hcond.1
        · exact heag k hk2 hkn
    · rename_i hcond
      refine ⟨reads + 1, results reads, rfl, le_refl _, Or.inr rfl, ?_, by simp⟩
      intro k hk hkn
      omega

/-- C3: `read` calls the library read at least once and repeats only while it
reports `AVERROR(EAGAIN)`; the retry bound starts at 1 (constructor), every
public operation keeps it non-negative (`setReadRetryCount` ignores negative
values), and with a non-negative bound the retry loop returns after at most
`getReadRetryCount() + 1` library reads — in particular `read` terminates
whenever it is given at least that much simulation fuel. -/
theorem C3_read_retry_bound :
    SourceImpl.make.mReadRetryMax = 1 ∧
    (∀ (s : SourceImpl) (op : Op) (env : Env) (r : Except VError Int)
       (s2 : SourceImpl), step s op env = some (r, s2) →
       0 ≤ s.mReadRetryMax → 0 ≤ s2.mReadRetryMax) ∧
    (∀ (s : SourceImpl) (results : Nat → Int), 0 ≤ s.getReadRetryCount →
      ∃ n r, readLoopFuel s.mReadRetryMax results (s.mReadRetryMax.toNat + 1) 0 =
          some (n, r) ∧ 1 ≤ n ∧ (n : Int) ≤ s.getReadRetryCount + 1 ∧
        (∀ k, k + 1 < n → results k = AVERROR_EAGAIN) ∧ r = results (n - 1)) ∧
    (∀ (s : SourceImpl) (arg : PacketArg) (env : Env), 0 ≤ s.mReadRetryMax →
      s.mReadRetryMax.toNat + 1 ≤ env.readFuel →
      (s.read arg env).isSome = true) := by
  refine ⟨rfl, ?_, ?_, ?_⟩
  · exact fun s op env r s2 h => (lem_step_cases s op env r s2 h).1
  · intro s results h0
    unfold SourceImpl.getReadRetryCount at h0
    obtain ⟨n, r, heq, hlow, hup, heag, hr⟩ :=
      lem_readLoop_terminates s.mReadRetryMax results h0
        (s.mReadRetryMax.toNat + 1) 0 (by omega) (by push_cast; omega)
    refine ⟨n, r, heq, hlow, ?_, fun k hk => heag k (Nat.zero_le k) hk, hr⟩
    rcases hup with h | h
    · exact h
    · rw [h]
      unfold SourceImpl.getReadRetryCount
      push_cast
      omega
  · intro s arg env h0 hf
    match arg with
    | PacketArg.other => simp [SourceImpl.read]
    | PacketArg.mp p =>
      unfold SourceImpl.read
      match hg : s.getFormatCtx with
      | Except.error e => simp
      | Except.ok c =>
        obtain ⟨n, r, heq, -⟩ :=
          lem_readLoop_terminates s.mReadRetryMax env.avReadResults h0
            env.readFuel 0 (by omega) (by push_cast; omega)
        rw [heq]
        dsimp only
        split
        · split
          · split <;> simp
          · simp
        · simp

/-- C3 witness: on a fresh container (retry bound 1) with the library always
reporting `EAGAIN`, the loop performs exactly 2 = 1 + 1 reads; `read` with
enough fuel returns. -/
theorem C3_read_retry_bound_witness :
    (∃ n r, readLoopFuel SourceImpl.make.mReadRetryMax (fun _ => AVERROR_EAGAIN)
        (SourceImpl.make.mReadRetryMax.toNat + 1) 0 = some (n, r) ∧ 1 ≤ n ∧
        (n : Int) ≤ SourceImpl.make.getReadRetryCount + 1 ∧
        (∀ k, k + 1 < n → (fun _ => AVERROR_EAGAIN) k = AVERROR_EAGAIN) ∧
        r = (fun _ => AVERROR_EAGAIN) (n - 1)) ∧
    (SourceImpl.make.read (PacketArg.mp MediaPacketModel.reset)
      sampleEnv).isSome = true ∧
    0 ≤ sampleClosed.mReadRetryMax :=
  ⟨C3_read_retry_bound.2.2.1 SourceImpl.make (fun _ => AVERROR_EAGAIN) (by decide),
   C3_read_retry_bound.2.2.2 SourceImpl.make (PacketArg.mp MediaPacketModel.reset)
     sampleEnv (by decide) (by decide),
   C3_read_retry_bound.2.1 sampleOpened Op.opClose sampleEnv (Except.ok 0)
     sampleClosed rfl (by decide)⟩

theorem lem_doSetup_le (s : SourceImpl) (ctx : AVFormatContext)
    (h : s.mNumStreams ≤ (s.mStreams.length : Int)) :
    (s.doSetupSourceStreams ctx).2.mNumStreams ≤
      ((s.doSetupSourceStreams ctx).2.mStreams.length : Int) := by
  unfold SourceImpl.doSetupSourceStreams
  by_cases he : s.mNumStreams = (ctx.streams.length : Int)
  · simpa [he] using h
  · by_cases hneg : s.mNumStreams < 0 <;> simp [he, hneg] <;> omega

theorem lem_gss_ok (s : SourceImpl) (pos : Int) (ctx : AVFormatContext)
    (hs : isOpenedPlayingPaused s.mState = true) (hc : s.mCtx = some ctx)
    (hinv : s.mNumStreams ≤ (s.mStreams.length : Int)) (hpos : 0 ≤ pos) :
    ∃ o, (s.getSourceStream pos).1 = Except.ok o := by
  unfold SourceImpl.getSourceStream
  rw [hc]
  rw [if_neg (by simp [hs])]
  dsimp only
  have hinv1 : ∀ t : SourceImpl,
      (t = (if (ctx.streams.length : Int) ≠ s.mNumStreams then
        (s.doSetupSourceStreams ctx).2 else s)) →
      t.mNumStreams ≤ (t.mStreams.length : Int) := by
    intro t ht
    rw [ht]
    split
    · exact lem_doSetup_le s ctx hinv
    · exact hinv
  set s1 : SourceImpl :=
    (if (ctx.streams.length : Int) ≠ s.mNumStreams then
      (s.doSetupSourceStreams ctx).2 else s) with hs1
  have hinv2 := hinv1 s1 hs1
  by_cases hlt : pos < s1.mNumStreams
  · rw [if_pos hlt, if_neg (by omega)]
    have hidx : pos.toNat < s1.mStreams.length := by omega
    rw [List.getElem?_eq_getElem hidx]
    exact ⟨_, rfl⟩
  · rw [if_neg hlt]
    exact ⟨none, rfl⟩

/-- C7: for every `MediaPacket` argument, `read` first resets the packet and
marks it incomplete (the outcome is independent of the packet passed in and
on failure the packet is exactly the reset packet plus the library fill);
the packet ends complete exactly when the final library read returned
success (`≥ 0`), in which case a non-negative packet stream index whose
stream carries a time base makes the packet adopt that stream time base.
An argument that is not a `MediaPacketImpl` gets -1 back with no effect. -/
theorem C7_read_packet (s : SourceImpl) (p : MediaPacketModel) (env : Env) :
    (s.read PacketArg.other env = some (Except.ok (-1), s, PacketArg.other)) ∧
    (∀ q : MediaPacketModel,
      s.read (PacketArg.mp p) env = s.read (PacketArg.mp q) env) ∧
    (isOpenedPlayingPaused s.mState = true → s.mCtx.isSome = true →
     s.mNumStreams ≤ (s.mStreams.length : Int) →
     ∀ n retval,
       readLoopFuel s.mReadRetryMax env.avReadResults env.readFuel 0 =
         some (n, retval) →
     ∃ p2 s2, s.read (PacketArg.mp p) env =
          some (Except.ok retval, s2, PacketArg.mp p2) ∧
       (p2.complete = true ↔ 0 ≤ retval) ∧
       p2.streamIndex = (env.avReadFill (n - 1)).1 ∧
       p2.size = (env.avReadFill (n - 1)).2 ∧
       (retval < 0 → p2 = { MediaPacketModel.reset with
          streamIndex := (env.avReadFill (n - 1)).1,
          size := (env.avReadFill (n - 1)).2 }) ∧
       (0 ≤ retval → 0 ≤ (env.avReadFill (n - 1)).1 →
         ∀ st tb, (s.getSourceStream (env.avReadFill (n - 1)).1).1 =
             Except.ok (some st) → st.timeBase = some tb →
           p2.timeBase = some tb)) := by
  refine ⟨rfl, fun q => rfl, ?_⟩
  intro hs hc hinv n retval heq
  match hc2 : s.mCtx with
  | none => rw [hc2] at hc; simp at hc
  | some c =>
    have hgf : s.getFormatCtx = Except.ok c := by
      unfold SourceImpl.getFormatCtx
      rw [hc2, if_neg (by cases hst : s.mState <;>
        simp [hst, isOpenedPlayingPaused] at hs ⊢)]
    unfold SourceImpl.read
    rw [hgf, heq]
    dsimp only
    by_cases hret : 0 ≤ retval
    · rw [if_pos hret]
      by_cases hfill : 0 ≤ (env.avReadFill (n - 1)).1
      · rw [if_pos hfill]
        obtain ⟨o, ho⟩ := lem_gss_ok s (env.avReadFill (n - 1)).1 c hs hc2 hinv hfill
        revert ho
        match hgs : (s.getSourceStream (env.avReadFill (n - 1)).1).1 with
        | Except.error e => intro ho; cases ho
        | Except.ok ostream =>
          intro ho
          match ostream with
          | some st =>
            match htb : st.timeBase with
            | some tb =>
              dsimp only
              rw [htb]
              refine ⟨_, _, rfl, by simp [hret], rfl, rfl, by intro hneg; omega, ?_⟩
              intro _ _ st2 tb2 hst2 htb2
              obtain rfl : st = st2 := by simpa using hst2
              rw [htb] at htb2
              cases htb2
              simp
            | none =>
              dsimp only
              rw [htb]
              refine ⟨_, _, rfl, by simp [hret], rfl, rfl, by intro hneg; omega, ?_⟩
              intro _ _ st2 tb2 hst2 htb2
              obtain rfl : st = st2 := by simpa using hst2
              rw [htb] at htb2
              cases htb2
          | none =>
            refine ⟨_, _, rfl, by simp [hret], rfl, rfl, by intro hneg; omega, ?_⟩
            intro _ _ st2 tb2 hst2 htb2
            simp at hst2
      · rw [if_neg hfill]
        refine ⟨_, _, rfl, by simp [hret], rfl, rfl, by intro hneg; omega, ?_⟩
        intro _ hfill2 st2 tb2 hst2 htb2
        exact absurd hfill2 hfill
    · rw [if_neg hret]
      refine ⟨_, _, rfl, by simp [hret, MediaPacketModel.reset], rfl, rfl,
        fun _ => rfl, ?_⟩
      intro hret2 _ _ _ _ _
      exact absurd hret2 hret

/-- C7 witness: on an opened container with queried streams, a successful
single read completes the packet, fills its stream index and size, and a
non-`MediaPacketImpl` argument gets -1 with nothing touched. -/
theorem C7_read_packet_witness :
    (∃ p2 s2, SourceImpl.read (sampleOpened.queryStreamMetaData sampleEnv).2
          (PacketArg.mp MediaPacketModel.reset) sampleEnv =
          some (Except.ok 0, s2, PacketArg.mp p2) ∧
        (p2.complete = true ↔ (0 : Int) ≤ 0) ∧
        p2.streamIndex = (sampleEnv.avReadFill (1 - 1)).1 ∧
        p2.size = (sampleEnv.avReadFill (1 - 1)).2 ∧
        ((0 : Int) < 0 → p2 = { MediaPacketModel.reset with
            streamIndex := (sampleEnv.avReadFill (1 - 1)).1,
            size := (sampleEnv.avReadFill (1 - 1)).2 }) ∧
        ((0 : Int) ≤ 0 → 0 ≤ (sampleEnv.avReadFill (1 - 1)).1 →
          ∀ st tb,
            (SourceImpl.getSourceStream
                (sampleOpened.queryStreamMetaData sampleEnv).2
                (sampleEnv.avReadFill (1 - 1)).1).1 =
              Except.ok (some st) → st.timeBase = some tb →
            p2.timeBase = some tb)) ∧
    SourceImpl.read (sampleOpened.queryStreamMetaData sampleEnv).2
        PacketArg.other sampleEnv =
      some (Except.ok (-1), (sampleOpened.queryStreamMetaData sampleEnv).2,
        PacketArg.other) := by
  constructor
  · obtain ⟨p2, s2, h1, h2, h3, h4, h5, h6⟩ :=
      (C7_read_packet (sampleOpened.queryStreamMetaData sampleEnv).2
        MediaPacketModel.reset sampleEnv).2.2 (by decide) (by decide) (by decide)
        1 0 rfl
    exact ⟨p2, s2, h1, h2, h3, h4, fun hlt => absurd hlt (by decide), h6⟩
  · exact (C7_read_packet (sampleOpened.queryStreamMetaData sampleEnv).2
      MediaPacketModel.reset sampleEnv).1
